import Mathlib

/-!
Verification development for the job-map aggregation pipeline
(`src/ai.py`, `src/extract_salary_experience.py`).

The Python sources are shallowly embedded: dict-shaped CSV/JSON rows become
association lists, Python `str` becomes `String`, Python floats that only
ever carry decimal literals (coordinates, salary amounts) become `ℚ`, and
fallible operations return `Option`.  The Python `str.strip` is modelled by
`String.trim` (both drop ASCII whitespace from the two ends; the inputs in
this development are ASCII).  Regular-expression matching is embedded by a
small backtracking engine (`RE`, `reSearch`) that mirrors Python `re`
semantics (leftmost match, greedy/lazy backtracking, capture groups) for
the pattern constructs the sources use.
-/

namespace JobMap

/-- Whether `pat` occurs as a contiguous block inside `s`. -/
def isInfixList (pat : List Char) : List Char → Bool
  | [] => pat.isPrefixOf []
  | c :: rest => pat.isPrefixOf (c :: rest) || isInfixList pat rest

/-- Python `needle in haystack` on strings: substring containment. -/
def strContains (haystack needle : String) : Bool :=
  isInfixList needle.data haystack.data

/-- Python `str.lower` (ASCII; the embedded inputs are ASCII). -/
def strLower (s : String) : String :=
  ⟨s.data.map Char.toLower⟩

/-- Python `str.strip()` (ASCII whitespace; the embedded inputs are ASCII). -/
def pyStrip (s : String) : String :=
  ⟨(((s.data.dropWhile Char.isWhitespace).reverse.dropWhile Char.isWhitespace).reverse)⟩

/-- Python `str.split(sep)` for a single-character separator. -/
def splitOnChar (sep : Char) : List Char → List (List Char)
  | [] => [[]]
  | c :: rest =>
    if c = sep then [] :: splitOnChar sep rest
    else
      match splitOnChar sep rest with
      | [] => [[c]]
      | g :: gs => (c :: g) :: gs

/-- Python `s.split(sep)` on strings, single-character separator. -/
def strSplitChar (s : String) (sep : Char) : List String :=
  (splitOnChar sep s.data).map (fun l => ⟨l⟩)

/-- One rewrite step used by `replaceAll`: replace the first occurrence. -/
def replaceFirstAux : List Char → List Char → List Char → Option (List Char)
  | _, _, [] => none
  | pat, rep, c :: rest =>
    if List.isPrefixOf pat (c :: rest) then
      some (rep ++ (c :: rest).drop pat.length)
    else
      match replaceFirstAux pat rep rest with
      | some out => some (c :: out)
      | none => none

/-- Python `str.replace(pat, rep)`: replace every non-overlapping occurrence,
scanning left to right.  `fuel` bounds the rewriting (amply large for the
finitely many occurrences in any input). -/
def replaceAllAux : Nat → List Char → List Char → List Char → List Char
  | 0, _, _, s => s
  | fuel + 1, pat, rep, s =>
    match s with
    | [] => []
    | c :: rest =>
      if List.isPrefixOf pat (c :: rest) ∧ pat ≠ [] then
        rep ++ replaceAllAux fuel pat rep ((c :: rest).drop pat.length)
      else
        c :: replaceAllAux fuel pat rep rest

def replaceAll (s pat rep : String) : String :=
  ⟨replaceAllAux (s.data.length + 1) pat.data rep.data s.data⟩

/-- Python `str.upper` (ASCII). -/
def strUpper (s : String) : String :=
  ⟨s.data.map Char.toUpper⟩

/-- Python `s.startswith(pre)`. -/
def strStartsWith (s pre : String) : Bool :=
  pre.data.isPrefixOf s.data

/-- Python slice `s[a:b]` on character lists (indices clamped as in Python
for non-negative `a ≤ b`). -/
def sliceList (s : List Char) (a b : Nat) : List Char :=
  (s.drop a).take (b - a)

/-!  ## A small backtracking regular-expression engine.

Embeds the semantics of Python `re` for the constructs the sources use:
leftmost match, greedy/lazy quantifier backtracking, ordered alternation,
capture groups (innermost-last wins), negative lookahead, word boundaries
and anchors.  `re.IGNORECASE` is the `ci` flag (ASCII case folding; the
embedded inputs are ASCII).  The Python `$` also accepts a final newline;
the embedded inputs never end in a newline, where the two agree.  -/

/-- Regular-expression abstract syntax. -/
inductive RE where
  /-- empty pattern -/
  | eps : RE
  /-- single-character class `[...]` given by its predicate -/
  | cls (p : Char → Bool) : RE
  /-- literal string -/
  | lit (s : String) : RE
  /-- concatenation -/
  | seq (a b : RE) : RE
  /-- ordered alternation `a|b` -/
  | alt (a b : RE) : RE
  /-- `a*` (greedy) or `a*?` (lazy) -/
  | star (a : RE) (greedy : Bool) : RE
  /-- bounded repetition `a{lo,hi}` -/
  | rep (a : RE) (lo hi : Nat) (greedy : Bool) : RE
  /-- `a?` (greedy) or `a??` (lazy) -/
  | opt (a : RE) (greedy : Bool) : RE
  /-- capture group `(a)` with 1-based index `n` -/
  | group (n : Nat) (a : RE) : RE
  /-- negative lookahead `(?!a)` -/
  | nla (a : RE) : RE
  /-- word boundary `\b` -/
  | wb : RE
  /-- start anchor `^` -/
  | bos : RE
  /-- end anchor `$` -/
  | eos : RE

/-- Python `\w`: ASCII letters, digits and underscore (inputs are ASCII). -/
def isWordChar (c : Char) : Bool :=
  c.isAlpha || c.isDigit || c = '_'

/-- Python `\s` on ASCII input. -/
def isSpaceChar (c : Char) : Bool :=
  c = ' ' || c = '\t' || c = '\n' || c = '\r' || c = '\x0b' || c = '\x0c'

/-- Case-folded character test used under `re.IGNORECASE`. -/
def clsMatch (ci : Bool) (p : Char → Bool) (c : Char) : Bool :=
  p c || (ci && (p c.toLower || p c.toUpper))

/-- Match a literal, returning the rest of the input. -/
def litMatch (ci : Bool) : List Char → List Char → Option (List Char)
  | [], s => some s
  | _ :: _, [] => none
  | a :: as, c :: cs =>
    if a = c || (ci && a.toLower = c.toLower) then litMatch ci as cs else none

/-- Captures: `(group index, start offset, end offset)`, newest first. -/
abbrev Caps := List (Nat × Nat × Nat)

/-- A successful match: its end offset and captures. -/
structure MatchRes where
  endPos : Nat
  caps : Caps

/-- The continuation type of the backtracking matcher. -/
abbrev MatchCont := List Char → Nat → Caps → Option MatchRes

/-- The backtracking matcher.  `orig` is the whole searched text (for `\b`),
`s` the rest of the input at offset `pos`.  `fuel` bounds the recursion;
every use supplies fuel far above the actual backtracking depth. -/
def reRun (ci : Bool) (orig : List Char) :
    Nat → RE → List Char → Nat → Caps → MatchCont → Option MatchRes
  | 0, _, _, _, _, _ => none
  | fuel + 1, re, s, pos, caps, k =>
    match re with
    | .eps => k s pos caps
    | .cls p =>
      match s with
      | [] => none
      | c :: rest => if clsMatch ci p c then k rest (pos + 1) caps else none
    | .lit l =>
      match litMatch ci l.data s with
      | some rest => k rest (pos + l.data.length) caps
      | none => none
    | .seq a b =>
      reRun ci orig fuel a s pos caps fun s1 p1 c1 =>
        reRun ci orig fuel b s1 p1 c1 k
    | .alt a b =>
      match reRun ci orig fuel a s pos caps k with
      | some m => some m
      | none => reRun ci orig fuel b s pos caps k
    | .star a greedy =>
      if greedy then
        match reRun ci orig fuel a s pos caps (fun s1 p1 c1 =>
            if p1 = pos then none
            else reRun ci orig fuel (.star a greedy) s1 p1 c1 k) with
        | some m => some m
        | none => k s pos caps
      else
        match k s pos caps with
        | some m => some m
        | none =>
          reRun ci orig fuel a s pos caps fun s1 p1 c1 =>
            if p1 = pos then none
            else reRun ci orig fuel (.star a greedy) s1 p1 c1 k
    | .rep a lo hi greedy =>
      match lo with
      | n + 1 =>
        reRun ci orig fuel a s pos caps fun s1 p1 c1 =>
          reRun ci orig fuel (.rep a n (hi - 1) greedy) s1 p1 c1 k
      | 0 =>
        match hi with
        | 0 => k s pos caps
        | m + 1 =>
          if greedy then
            match reRun ci orig fuel a s pos caps (fun s1 p1 c1 =>
                if p1 = pos then none
                else reRun ci orig fuel (.rep a 0 m greedy) s1 p1 c1 k) with
            | some r => some r
            | none => k s pos caps
          else
            match k s pos caps with
            | some r => some r
            | none =>
              reRun ci orig fuel a s pos caps fun s1 p1 c1 =>
                if p1 = pos then none
                else reRun ci orig fuel (.rep a 0 m greedy) s1 p1 c1 k
    | .opt a greedy =>
      if greedy then
        match reRun ci orig fuel a s pos caps k with
        | some m => some m
        | none => k s pos caps
      else
        match k s pos caps with
        | some m => some m
        | none => reRun ci orig fuel a s pos caps k
    | .group n a =>
      reRun ci orig fuel a s pos caps fun s1 p1 c1 => k s1 p1 ((n, pos, p1) :: c1)
    | .nla a =>
      match reRun ci orig fuel a s pos caps (fun _ p1 c1 => some ⟨p1, c1⟩) with
      | some _ => none
      | none => k s pos caps
    | .wb =>
      let before :=
        match pos with
        | 0 => false
        | q + 1 =>
          match orig.get? q with
          | some c => isWordChar c
          | none => false
      let after :=
        match s with
        | [] => false
        | c :: _ => isWordChar c
      if before ≠ after then k s pos caps else none
    | .bos => if pos = 0 then k s pos caps else none
    | .eos => if s = [] then k s pos caps else none

/-- The result of `re.search`: span and captures of the leftmost match. -/
structure SearchRes where
  startPos : Nat
  endPos : Nat
  caps : Caps
deriving DecidableEq

/-- Generous fuel for `reRun` on input `s` (far above the backtracking
depth any of the embedded patterns reaches on the embedded inputs). -/
def reFuel (s : List Char) : Nat :=
  (s.length + 64) * 4096

/-- `re.search`: try each start offset left to right. -/
def reSearchFrom (ci : Bool) (orig : List Char) (re : RE) :
    List Char → Nat → Option SearchRes
  | s, pos =>
    match reRun ci orig (reFuel orig) re s pos [] (fun _ p c => some ⟨p, c⟩) with
    | some m => some ⟨pos, m.endPos, m.caps⟩
    | none =>
      match s with
      | [] => none
      | _ :: rest => reSearchFrom ci orig re rest (pos + 1)

/-- `re.search(re, s, flags)` over a character list. -/
def reSearchL (ci : Bool) (re : RE) (s : List Char) : Option SearchRes :=
  reSearchFrom ci s re s 0

/-- `match.group(n)` of a search result, as a string (the newest capture of
the group wins, as in Python). -/
def capGroup (s : List Char) (m : SearchRes) (n : Nat) : String :=
  match m.caps.find? (fun e => e.1 = n) with
  | some (_, a, b) => ⟨sliceList s a b⟩
  | none => ""

/-- `match.group(0)` of a search result. -/
def capWhole (s : List Char) (m : SearchRes) : String :=
  ⟨sliceList s m.startPos m.endPos⟩

/-- Number of capture groups a pattern declares (`len(match.groups())`). -/
def reGroupCount : RE → Nat
  | .seq a b => max (reGroupCount a) (reGroupCount b)
  | .alt a b => max (reGroupCount a) (reGroupCount b)
  | .star a _ => reGroupCount a
  | .rep a _ _ _ => reGroupCount a
  | .opt a _ => reGroupCount a
  | .group n a => max n (reGroupCount a)
  | .nla a => reGroupCount a
  | _ => 0

/-- `re.sub(re, rep, s)`: replace every non-overlapping match, scanning left
to right (an empty match advances by one character, as in Python).  The
embedded substitution patterns contain no `\b`/`^`, so re-searching the
remaining suffix as a fresh string is faithful. -/
def reSubAux (ci : Bool) (re : RE) (rep : List Char) : Nat → List Char → List Char
  | 0, s => s
  | fuel + 1, s =>
    match reSearchL ci re s with
    | none => s
    | some m =>
      if m.endPos ≤ m.startPos then
        match s with
        | [] => []
        | c :: rest => c :: reSubAux ci re rep fuel rest
      else
        sliceList s 0 m.startPos ++ rep ++ reSubAux ci re rep fuel (s.drop m.endPos)

def reSub (ci : Bool) (re : RE) (rep s : String) : String :=
  ⟨reSubAux ci re rep.data (s.data.length + 1) s.data⟩

/-!  ### Pattern-building shorthands (no custom syntax; plain functions). -/

/-- A never-matching pattern (used as the unit of `ralt`). -/
def rfail : RE := RE.cls fun _ => false

/-- Concatenate a list of patterns. -/
def rcat (l : List RE) : RE := l.foldr RE.seq RE.eps

/-- Ordered alternation over a list of patterns. -/
def ralt : List RE → RE
  | [] => rfail
  | [a] => a
  | a :: rest => RE.alt a (ralt rest)

def rchar (c : Char) : RE := RE.lit ⟨[c]⟩
def rstr (s : String) : RE := RE.lit s
def rstar (a : RE) : RE := RE.star a true
def rplus (a : RE) : RE := RE.seq a (RE.star a true)
def ropt (a : RE) : RE := RE.opt a true
def rgroup (n : Nat) (a : RE) : RE := RE.group n a

/-- `\d` -/
def rdigit : RE := RE.cls Char.isDigit
/-- `\s` -/
def rspace : RE := RE.cls isSpaceChar
/-- `\s*` -/
def rsp : RE := rstar rspace
/-- `\s+` -/
def rsp1 : RE := rplus rspace
/-- `\w` -/
def rword : RE := RE.cls isWordChar
/-- `.` (any char but newline) -/
def rdot : RE := RE.cls fun c => c ≠ '\n'
/-- `[\$£€¥]` -/
def rcurrency : RE := RE.cls fun c => c = '$' || c = '£' || c = '€' || c = '¥'
/-- `[-–—]` -/
def rdash : RE := RE.cls fun c => c = '-' || c = '–' || c = '—'
/-- `(?:k|K)?` -/
def rkOpt : RE := ropt (RE.cls fun c => c = 'k' || c = 'K')

/-!  ## `split_locations` (src/ai.py lines 943-958) and the per-company
location normalisation hook (lines 919-940).  -/

/-- Embeds `split_locations` from src/ai.py:

    if not location_str: return [""]
    if "|" in location_str:
        locations = [loc.strip() for loc in location_str.split("|") if loc.strip()]
    else:
        locations = [loc.strip() for loc in location_str.split(";") if loc.strip()]
    return locations if locations else [""]
-/
def split_locations (location_str : String) : List String :=
  if location_str = "" then [""]
  else
    let locations :=
      if strContains location_str "|" then
        ((strSplitChar location_str '|').map pyStrip).filter (fun l => l ≠ "")
      else
        ((strSplitChar location_str ';').map pyStrip).filter (fun l => l ≠ "")
    if locations = [] then [""] else locations

/-- Embeds `normalize_location_by_company` from src/ai.py (lines 919-940):
the single company-specific rule rewrites the Tavily string
"All Locations - On Site" to "New York". -/
def normalize_location_by_company (location_str company_name : String) : String :=
  if location_str = "" ∨ company_name = "" then location_str
  else
    let location_lower := pyStrip (strLower location_str)
    let company_lower := pyStrip (strLower company_name)
    if company_lower = "tavily" ∧ location_lower = "all locations - on site" then
      "New York"
    else location_str

/-- The location-splitting contract as the specification words it (claim C7):
if `|` is present split on `|` (so `;` inside pipe-split fragments is never
re-split), otherwise split on `;`; trim each fragment of outer whitespace;
drop empty fragments; if every fragment drops, or the input is empty, keep a
single empty-string entry. -/
def splitLocationsSpec (location_str : String) : List String :=
  let fragments :=
    if strContains location_str "|" then strSplitChar location_str '|'
    else strSplitChar location_str ';'
  let kept := (fragments.map pyStrip).filter (fun l => l ≠ "")
  if kept = [] then [""] else kept

/-!  ## Salary and experience extraction
(src/extract_salary_experience.py, imported by src/ai.py).

Each Python regex literal is transliterated into an `RE` value; the
searches use `re.IGNORECASE` exactly where the source passes it.  Numeric
values flow through Python `float` on decimal strings; they are embedded
as `ℚ` (the amounts involved are exact decimals).  -/

/-- `<[^>]+>` — the tag stripper used on descriptions. -/
def tagRE : RE := rcat [rchar '<', rplus (RE.cls fun c => c ≠ '>'), rchar '>']

/-- `re.sub(r"<[^>]+>", "", s)`. -/
def stripTags (s : String) : String := reSub false tagRE "" s

/-- The named/numeric entities relevant to the embedded inputs.  Python
`html.unescape` knows the full HTML5 table; on entity-free text (all the
inputs proved about here) both are the identity. -/
def entityTable : List (String × Char) :=
  [("&mdash;", '—'), ("&ndash;", '–'), ("&amp;", '&'), ("&lt;", '<'),
   ("&gt;", '>'), ("&quot;", '"'), ("&nbsp;", '\xA0')]

/-- One-pass entity decoding (`html.unescape`, restricted to `entityTable`). -/
def htmlUnescapeAux : Nat → List Char → List Char
  | 0, s => s
  | fuel + 1, s =>
    match s with
    | [] => []
    | c :: rest =>
      if c = '&' then
        match entityTable.find? (fun e => e.1.data.isPrefixOf (c :: rest)) with
        | some (name, r) => r :: htmlUnescapeAux fuel ((c :: rest).drop name.data.length)
        | none => c :: htmlUnescapeAux fuel rest
      else c :: htmlUnescapeAux fuel rest

def htmlUnescape (s : String) : String :=
  ⟨htmlUnescapeAux (s.data.length + 1) s.data⟩

/-- `\d{1,3}(?:[.,]\d{3})*(?:\.\d+)?` — the range-pattern number group. -/
def rnum : RE :=
  rcat [RE.rep rdigit 1 3 true,
        rstar (rcat [RE.cls (fun c => c = '.' || c = ','), RE.rep rdigit 3 3 true]),
        ropt (rcat [rchar '.', rplus rdigit])]

/-- `\d{1,3}(?:,\d{3})*(?:\.\d+)?` — the single-value number group. -/
def rnumComma : RE :=
  rcat [RE.rep rdigit 1 3 true,
        rstar (rcat [rchar ',', RE.rep rdigit 3 3 true]),
        ropt (rcat [rchar '.', rplus rdigit])]

/-- `(?:[-–—]|&mdash;|&ndash;)` -/
def rdashEnt : RE := ralt [rdash, rstr "&mdash;", rstr "&ndash;"]

/-- `(?:[-–—to]+|&mdash;|&ndash;)` -/
def rdashToEnt : RE :=
  ralt [rplus (RE.cls fun c => c = '-' || c = '–' || c = '—' || c = 't' || c = 'o'),
        rstr "&mdash;", rstr "&ndash;"]

/-- `[:\s]*` -/
def rcolonSp : RE := rstar (RE.cls fun c => c = ':' || isSpaceChar c)

/-- `[:\s]+` -/
def rcolonSp1 : RE := rplus (RE.cls fun c => c = ':' || isSpaceChar c)

/-- `(?!\s*(?:[-–—]|&mdash;|&ndash;|to)\s*[\$£€¥]?\s*\d)` -/
def rnlaRange : RE :=
  RE.nla (rcat [rsp, ralt [rdash, rstr "&mdash;", rstr "&ndash;", rstr "to"],
                rsp, ropt rcurrency, rsp, rdigit])

/-- Pattern 1 of `extract_salary_from_description`. -/
def salaryPat1 : RE :=
  rcat [ropt (rcat [rstr "estimated", rsp1]), ropt (rcat [rstr "annual", rsp1]),
        ropt (rcat [rstr "base", rsp1]), rstr "salary", rcolonSp,
        ropt (rcat [rstr "of", rsp1]),
        rcurrency, rsp, rgroup 1 rnum, rsp, rkOpt, rsp, rdashEnt, rsp,
        ropt rcurrency, rsp, rgroup 2 rnum, rsp, rkOpt]

/-- Pattern 2. -/
def salaryPat2 : RE :=
  rcat [ropt (rcat [rstr "annual", rsp1]), rstr "salary", rcolonSp,
        rcurrency, rsp, rgroup 1 rnum, rsp, rkOpt, rsp, rdashEnt, rsp,
        ropt rcurrency, rsp, rgroup 2 rnum, rsp, rkOpt]

/-- `(?:salary|compensation|base\s+salary|base\s+compensation)` -/
def salaryKeyword : RE :=
  ralt [rstr "salary", rstr "compensation",
        rcat [rstr "base", rsp1, rstr "salary"],
        rcat [rstr "base", rsp1, rstr "compensation"]]

/-- Pattern 3. -/
def salaryPat3 : RE :=
  rcat [salaryKeyword, ropt (rcat [rsp1, rstr "range"]), rcolonSp1,
        rcurrency, rsp, rgroup 1 rnum, rsp, rkOpt, rsp, rdashToEnt, rsp,
        ropt rcurrency, rsp, rgroup 2 rnum, rsp, rkOpt]

/-- Pattern 4. -/
def salaryPat4 : RE :=
  rcat [salaryKeyword, rcolonSp1,
        rcurrency, rsp, rgroup 1 rnum, rsp, rkOpt, rsp, rdashToEnt, rsp,
        ropt rcurrency, rsp, rgroup 2 rnum, rsp, rkOpt]

/-- Pattern 5. -/
def salaryPat5 : RE :=
  rcat [rcurrency, rsp, rgroup 1 rnum, rsp, rkOpt, rsp, rdashEnt, rsp,
        ropt rcurrency, rsp, rgroup 2 rnum, rsp, rkOpt]

/-- Pattern 6 (`$100k to $150k`). -/
def salaryPat6 : RE :=
  rcat [rcurrency, rsp, rgroup 1 rnum, rsp, rkOpt, rsp1, rstr "to", rsp1,
        ropt rcurrency, rsp, rgroup 2 rnum, rsp, rkOpt]

/-- Pattern 7 (`$100,000 - $150,000 per year`). -/
def salaryPat7 : RE :=
  rcat [rcurrency, rsp, rgroup 1 rnum, rsp, rdashEnt, rsp,
        ropt rcurrency, rsp, rgroup 2 rnum, rsp,
        ralt [rstr "per", rchar '/'], rsp,
        ralt [rstr "year", rstr "annum", rstr "annually"]]

/-- Pattern 8 (single value with salary context and no following range). -/
def salaryPat8 : RE :=
  rcat [ralt [rstr "salary", rstr "compensation", rstr "base"], rsp1, rcolonSp1,
        rcurrency, rsp, rgroup 1 rnumComma, rsp, rkOpt, rnlaRange]

/-- Pattern 9 (standalone single value, no following range). -/
def salaryPat9 : RE :=
  rcat [rcurrency, rsp, rgroup 1 rnumComma, rsp, rkOpt, rnlaRange, rsp,
        ropt (ralt [rstr "per", rchar '/']), rsp,
        ropt (ralt [rstr "year", rstr "annum", rstr "annually"])]

/-- The ordered pattern list of `extract_salary_from_description`. -/
def salaryPatterns : List RE :=
  [salaryPat1, salaryPat2, salaryPat3, salaryPat4, salaryPat5,
   salaryPat6, salaryPat7, salaryPat8, salaryPat9]

/-- `\b(billion|billions|million|millions)\s+.*?\$` -/
def fpInd1 : RE :=
  rcat [RE.wb, rgroup 1 (ralt [rstr "billion", rstr "billions",
                               rstr "million", rstr "millions"]),
        rsp1, RE.star rdot false, rchar '$']

/-- `\b(paid|pay|pays|revenue|revenues|raised|valued|valuation)\s+\d+.*?\$` -/
def fpInd2 : RE :=
  rcat [RE.wb, rgroup 1 (ralt [rstr "paid", rstr "pay", rstr "pays",
                               rstr "revenue", rstr "revenues", rstr "raised",
                               rstr "valued", rstr "valuation"]),
        rsp1, rplus rdigit, RE.star rdot false, rchar '$']

/-- `\$\s*\d+(?:,\d+)*(?:[km])?` — shared prefix of indicators 3-6. -/
def fpMoney : RE :=
  rcat [rchar '$', rsp, rplus rdigit, rstar (rcat [rchar ',', rplus rdigit]),
        ropt (RE.cls fun c => c = 'k' || c = 'm')]

def fpInd3 : RE := rcat [fpMoney, rsp1, rstr "in", rsp1, rstr "revenue"]
def fpInd4 : RE := rcat [fpMoney, rsp1, rstr "revenue"]
def fpInd5 : RE := rcat [fpMoney, rsp1, rstr "arr", RE.wb]
def fpInd6 : RE := rcat [fpMoney, rsp1, rstr "arr", rsp1]

/-- The false-positive indicator list (searched case-sensitively over the
already-lowercased context, as in the source). -/
def falsePositiveIndicators : List RE :=
  [fpInd1, fpInd2, fpInd3, fpInd4, fpInd5, fpInd6]

/-- Value of a digit string. -/
def digitsToNat (l : List Char) : Nat :=
  l.foldl (fun a c => a * 10 + (c.toNat - 48)) 0

/-- A non-negative exact decimal `mant / 10 ^ exp`.  Embeds the Python
floats the salary code computes: every number flowing through it is parsed
from a short decimal string, multiplied by 1000, compared, or truncated —
all exact on such decimals, so the embedding is faithful where the claims
look (float rounding cannot flip any of the comparisons involved). -/
structure Dec where
  mant : Nat
  exp : Nat
deriving DecidableEq

/-- Strict comparison of decimals (exact). -/
def Dec.blt (a b : Dec) : Bool :=
  a.mant * 10 ^ b.exp < b.mant * 10 ^ a.exp

/-- Multiplication by 1000 (the `k` normalization). -/
def Dec.scale1000 (a : Dec) : Dec :=
  ⟨a.mant * 1000, a.exp⟩

/-- Python `int(x)` for the non-negative values that reach it here. -/
def Dec.trunc (a : Dec) : Nat :=
  a.mant / 10 ^ a.exp

/-- The rational a decimal denotes (used only in theorem statements). -/
def Dec.toRat (a : Dec) : ℚ :=
  (a.mant : ℚ) / 10 ^ a.exp

/-- A decimal written from a natural-number literal. -/
def Dec.ofNat (n : Nat) : Dec := ⟨n, 0⟩

/-- Python `float` on the (comma-free) decimal strings that reach it here.
Several dots would make Python raise `ValueError`; the embedded capture
groups never produce that shape, and it is mapped to `none`. -/
def parseDec (l : List Char) : Option Dec :=
  if l = [] ∨ ¬ l.all (fun c => c.isDigit || c = '.') then none
  else
    match splitOnChar '.' l with
    | [ip] => some ⟨digitsToNat ip, 0⟩
    | [ip, fp] => some ⟨digitsToNat ip * 10 ^ fp.length + digitsToNat fp, fp.length⟩
    | _ => none

/-- Python `s.replace(c, "")` for a single-character pattern. -/
def stripChars (s : String) (c : Char) : String :=
  ⟨s.data.filter (fun x => x ≠ c)⟩

/-- The ±100-char context of a match, stripped and lowercased
(`context_lower` in the source). -/
def fpContextLower (desc : List Char) (m : SearchRes) : String :=
  strLower (pyStrip ⟨sliceList desc (m.startPos - 100) (m.endPos + 100)⟩)

/-- Whether any false-positive indicator fires on the lowered context. -/
def isFalsePositive (ctxLower : String) : Bool :=
  falsePositiveIndicators.any fun ind => (reSearchL false ind ctxLower.data).isSome

/-- `"k" in matched_text.lower()` followed by the `< 1000` k-multiplication. -/
def kMult (matchedText : String) (v : Dec) : Dec :=
  if strContains (strLower matchedText) "k" ∧ Dec.blt v (Dec.ofNat 1000) then
    v.scale1000
  else v

/-- The ±50-char context returned with a successful extraction. -/
def shortContext (desc : List Char) (m : SearchRes) : String :=
  pyStrip ⟨sliceList desc (m.startPos - 50) (m.endPos + 50)⟩

/-- Currency symbol choice from the matched text. -/
def currencyOf (matchedText : String) : String :=
  if strContains matchedText "$" then "$"
  else if strContains matchedText "€" then "€"
  else if strContains matchedText "£" then "£"
  else "¥"

/-- The sanity bounds applied to a normalized salary range
(`min_float < 20000 or max_float > 1000000`, then `min_float > max_float`). -/
def rangeRejected (minF maxF : Dec) : Bool :=
  Dec.blt minF (Dec.ofNat 20000) || Dec.blt (Dec.ofNat 1000000) maxF ||
    Dec.blt maxF minF

/-- The sanity bounds applied to a normalized single salary value. -/
def singleRejected (v : Dec) : Bool :=
  Dec.blt v (Dec.ofNat 20000) || Dec.blt (Dec.ofNat 1000000) v

/-- The tail of the range branch (lines 330-363): k-normalization, bounds
checks and formatting of an already-parsed pair. -/
def salaryRangeFormat (desc : List Char) (m : SearchRes) (minq maxq : Dec) :
    Option (String × String) :=
  let matchedText := capWhole desc m
  let minF := kMult matchedText minq
  let maxF := kMult matchedText maxq
  if rangeRejected minF maxF then none
  else
    let g1 := capGroup desc m 1
    let g2 := capGroup desc m 2
    let currency := currencyOf matchedText
    let minStr := if strContains g1 "," then g1 else Nat.repr minF.trunc
    let maxStr := if strContains g2 "," then g2 else Nat.repr maxF.trunc
    some (currency ++ minStr ++ "-" ++ currency ++ maxStr, shortContext desc m)

/-- The two-group (range) branch of the pattern loop (lines 321-363). -/
def salaryRangeResult (desc : List Char) (m : SearchRes) :
    Option (String × String) :=
  match parseDec (stripChars (capGroup desc m 1) ',').data,
        parseDec (stripChars (capGroup desc m 2) ',').data with
  | some minq, some maxq => salaryRangeFormat desc m minq maxq
  | _, _ => none

/-- The tail of the single-value branch (lines 368-389). -/
def salarySingleFormat (desc : List Char) (m : SearchRes) (v : Dec) :
    Option (String × String) :=
  let vF := kMult (capWhole desc m) v
  if singleRejected vF then none
  else
    some (currencyOf (capWhole desc m) ++ Nat.repr vF.trunc,
      shortContext desc m)

/-- The one-group (single value) branch of the pattern loop
(lines 364-389). -/
def salarySingleResult (desc : List Char) (m : SearchRes) :
    Option (String × String) :=
  match parseDec (stripChars (stripChars (capGroup desc m 1) ',') '.').data with
  | some v => salarySingleFormat desc m v
  | none => none

/-- The body of the pattern loop of `extract_salary_from_description` once
a match is found: false-positive filtering, then the branch picked by the
static group count of the pattern.  `none` means the loop continues with
the next pattern. -/
def salaryMatchResult (desc : List Char) (p : RE) (m : SearchRes) :
    Option (String × String) :=
  if isFalsePositive (fpContextLower desc m) then none
  else if reGroupCount p = 2 then salaryRangeResult desc m
  else if reGroupCount p = 1 then salarySingleResult desc m
  else none

/-- The ordered pattern loop of `extract_salary_from_description`. -/
def extractSalaryAux (desc : List Char) : List RE → Option (String × String)
  | [] => none
  | p :: rest =>
    match reSearchL true p desc with
    | none => extractSalaryAux desc rest
    | some m =>
      match salaryMatchResult desc p m with
      | some r => some r
      | none => extractSalaryAux desc rest

/-- Embeds `extract_salary_from_description` (src/extract_salary_experience.py
lines 246-391): strip tags, decode entities, then try the nine patterns in
order under `re.IGNORECASE`, filtering false positives and out-of-bounds
values.  Returns `(salary_string, matched_context)`. -/
def extract_salary_from_description (description : String) :
    Option String × Option String :=
  if description = "" then (none, none)
  else
    let desc_clean := htmlUnescape (stripTags description)
    match extractSalaryAux desc_clean.data salaryPatterns with
    | some (a, b) => (some a, some b)
    | none => (none, none)

/-- `(?:experience|exp)` -/
def expKeyword : RE := ralt [rstr "experience", rstr "exp"]

/-- `(?:\w+\s+){0,8}` -/
def rwords08 : RE := RE.rep (rcat [rplus rword, rsp1]) 0 8 true

/-- `(?:\w+\s+){0,5}` -/
def rwords05 : RE := RE.rep (rcat [rplus rword, rsp1]) 0 5 true

/-- `[-–—to]+` -/
def rdashTo : RE :=
  rplus (RE.cls fun c => c = '-' || c = '–' || c = '—' || c = 't' || c = 'o')

/-- `years?` -/
def ryears : RE := rcat [rstr "year", ropt (rchar 's')]

/-- The action-verb alternation of the experience patterns. -/
def actionVerb : RE :=
  ralt [rstr "building", rstr "developing", rstr "designing", rstr "managing",
        rstr "working", rstr "creating", rstr "implementing",
        rstr "maintaining", rstr "supporting"]

/-- The context-word alternation of experience patterns 10 and 11. -/
def ctxWord : RE :=
  ralt [rstr "in", rstr "with", rstr "working", rstr "building",
        rstr "developing", rstr "designing", rstr "managing", rstr "shipping"]

def expPat1 : RE :=
  rcat [rgroup 1 (rplus rdigit), rchar '+', rsp1, ryears, rsp1, rstr "of", rsp1,
        rstr "experience", rsp1, rstr "with", rsp1,
        rplus (rcat [rplus rword, ropt (rcat [rsp1, rchar ',', rsp1]), rsp])]

def expPat2 : RE :=
  rcat [rgroup 1 (rplus rdigit), rchar '+', rsp1, ryears, rsp1, rstr "of", rsp1,
        ropt (rcat [rstr "proven", rsp1]), rstr "experience", rsp1, rstr "in",
        rsp1, rplus rword, rstar (rcat [rsp1, rplus rword])]

def expPat3 : RE :=
  rcat [ralt [rstr "have", rstr "possess", rstr "require", rstr "requires",
              rstr "required", rstr "need", rstr "needs"],
        rsp1, rgroup 1 (rplus rdigit), ropt (rchar '+'), rsp1, ryears, rsp1,
        ropt (rcat [rstr "of", rsp1]), rwords08, expKeyword]

def expPat4 : RE :=
  rcat [rgroup 1 (rplus rdigit), rsp, rdashTo, rsp, rgroup 2 (rplus rdigit),
        ropt (rchar '+'), rsp1, ryears, rsp1, rstr "of", rsp1, rwords05,
        expKeyword]

def expPat5 : RE :=
  rcat [rgroup 1 (rplus rdigit), rsp, rdashTo, rsp, rgroup 2 (rplus rdigit),
        ropt (rchar '+'), rsp1, ryears, rsp1, actionVerb, rsp1, rplus rword,
        rstar (rcat [rsp1, rplus rword])]

def expPat6 : RE :=
  rcat [rgroup 1 (rplus rdigit), rchar '+', rsp1, ryears, rsp1, actionVerb,
        rsp1, rplus rword, rstar (rcat [rsp1, rplus rword])]

def expPat7 : RE :=
  rcat [rgroup 1 (rplus rdigit), rsp, rdashTo, rsp, rgroup 2 (rplus rdigit),
        ropt (rchar '+'), rsp1, ryears, rsp1, ropt (rcat [rstr "of", rsp1]),
        rwords08, expKeyword]

def expPat8 : RE :=
  rcat [rgroup 1 (rplus rdigit), rchar '+', rsp1, ryears, rsp1,
        ropt (rcat [rstr "of", rsp1]), rwords08, expKeyword]

def expPat9 : RE :=
  rcat [ralt [rcat [rstr "at", rsp1, rstr "least"], rstr "minimum",
              rcat [rstr "min", ropt (rchar '.')]],
        rsp1, rgroup 1 (rplus rdigit), rsp1, ryears, rsp1,
        ropt (rcat [rstr "of", rsp1]), rwords08, expKeyword]

def expPat10 : RE :=
  rcat [rgroup 1 (rplus rdigit), rsp, rdashTo, rsp, rgroup 2 (rplus rdigit),
        ropt (rchar '+'), rsp1, ryears, rsp1, ctxWord]

def expPat11 : RE :=
  rcat [rgroup 1 (rplus rdigit), rchar '+', rsp1, ryears, rsp1, ctxWord]

def expPat12 : RE :=
  rcat [rgroup 1 (rplus rdigit), rsp1, ryears, rsp1,
        ropt (rcat [rstr "of", rsp1]), rwords08, expKeyword]

def expPat13 : RE :=
  rcat [rgroup 1 (rplus rdigit), rsp, rdashTo, rsp, rgroup 2 (rplus rdigit),
        ropt (rchar '+'), rsp1, ryears]

def expPat14 : RE := rcat [rgroup 1 (rplus rdigit), rchar '+', rsp1, ryears]

/-- The ordered pattern list of `extract_experience_from_description`. -/
def experiencePatterns : List RE :=
  [expPat1, expPat2, expPat3, expPat4, expPat5, expPat6, expPat7, expPat8,
   expPat9, expPat10, expPat11, expPat12, expPat13, expPat14]

/-- The pattern loop of `extract_experience_from_description` (both the
two-group and one-group branches return `int(match.group(1))`). -/
def extractExperienceAux (desc : List Char) : List RE → Option (Nat × String)
  | [] => none
  | p :: rest =>
    match reSearchL true p desc with
    | some m => some (digitsToNat (capGroup desc m 1).data, shortContext desc m)
    | none => extractExperienceAux desc rest

/-- Embeds `extract_experience_from_description`
(src/extract_salary_experience.py lines 394-454). -/
def extract_experience_from_description (description : String) :
    Option Nat × Option String :=
  if description = "" then (none, none)
  else
    let desc_clean := stripTags description
    match extractExperienceAux desc_clean.data experiencePatterns with
    | some (n, ctx) => (some n, some ctx)
    | none => (none, none)

/-- `(\d+(?:\.\d+)?)\s*(?:k|K)?\s*[-–—]\s*(\d+(?:\.\d+)?)\s*(?:k|K)?` -/
def parseRangePat : RE :=
  rcat [rgroup 1 (rcat [rplus rdigit, ropt (rcat [rchar '.', rplus rdigit])]),
        rsp, rkOpt, rsp, rdash, rsp,
        rgroup 2 (rcat [rplus rdigit, ropt (rcat [rchar '.', rplus rdigit])]),
        rsp, rkOpt]

/-- `(\d+(?:\.\d+)?)\s*(?:k|K)?` -/
def parseSinglePat : RE :=
  rcat [rgroup 1 (rcat [rplus rdigit, ropt (rcat [rchar '.', rplus rdigit])]),
        rsp, rkOpt]

/-- Embeds `parse_salary` (src/extract_salary_experience.py lines 457-521):
currency detection, symbol/comma removal and numeric range parsing.
Returns `(salary_min, salary_max, salary_currency)`. -/
def parse_salary (salary_str : Option String) :
    Option String × Option String × Option String :=
  match salary_str with
  | none => (none, none, none)
  | some s0 =>
    if s0 = "" then (none, none, none)
    else
      let s1 := pyStrip s0
      let currency :=
        if strStartsWith s1 "$" || strContains s1 "$" then "USD"
        else if strStartsWith s1 "€" || strContains s1 "€" then "EUR"
        else if strStartsWith s1 "£" || strContains s1 "£" then "GBP"
        else if strContains (strUpper s1) "USD" then "USD"
        else if strContains (strUpper s1) "EUR" then "EUR"
        else if strContains (strUpper s1) "GBP" then "GBP"
        else "USD"
      let s2 := pyStrip (reSub false rcurrency "" s1)
      let s3 := stripChars s2 ','
      match reSearchL false parseRangePat s3.data with
      | some m =>
        match parseDec (capGroup s3.data m 1).data,
              parseDec (capGroup s3.data m 2).data with
        | some mn, some mx =>
          let hasK := strContains (strLower s3) "k"
          let mn1 := if hasK ∧ Dec.blt mn (Dec.ofNat 1000) then mn.scale1000 else mn
          let mx1 := if hasK ∧ Dec.blt mx (Dec.ofNat 1000) then mx.scale1000 else mx
          (some (Nat.repr mn1.trunc), some (Nat.repr mx1.trunc), some currency)
        | _, _ => (none, none, none)
      | none =>
        match reSearchL false parseSinglePat s3.data with
        | some m =>
          match parseDec (capGroup s3.data m 1).data with
          | some v =>
            let hasK := strContains (strLower s3) "k"
            let v1 := if hasK ∧ Dec.blt v (Dec.ofNat 1000) then v.scale1000 else v
            (some (Nat.repr v1.trunc), some (Nat.repr v1.trunc), some currency)
          | none => (none, none, none)
        | none => (none, none, none)

/-!  ## The Location Atlas (`LOCATION_COORDINATES`, `get_coordinates`)
and its helpers (src/ai.py lines 48-916, 961-1097).  -/

/-- A signed exact decimal coordinate `mant / 10 ^ exp`, embedding the
float literals of the atlas (each is a short exact decimal). -/
structure Coord where
  mant : Int
  exp : Nat
deriving DecidableEq

/-- The rational a coordinate denotes (used only in theorem statements). -/
def Coord.toRat (c : Coord) : ℚ :=
  (c.mant : ℚ) / 10 ^ c.exp

/-- Shorthand constructor for atlas entries. -/
def ce (m : Int) (e : Nat) : Coord := Coord.mk m e

/-- The `LOCATION_COORDINATES` atlas of src/ai.py (lines 48-916), in
source order (a Python dict: first occurrence keeps the position, the
last duplicate assignment keeps the value — this dict has no duplicate
keys).  Coordinates are the exact decimal literals of the source, as
`Coord` mantissa/exponent pairs (`ce` abbreviates `Coord.mk`). -/
def LOCATION_COORDINATES : List (String × Coord × Coord) := [
  ("San Francisco, California, United States", ce 377749 4, ce (-1224194) 4),
  ("San Francisco, CA, United States", ce 377749 4, ce (-1224194) 4),
  ("San Francisco", ce 377749 4, ce (-1224194) 4),
  ("San Fransisco, California, United States", ce 377749 4, ce (-1224194) 4),
  ("San Fransisco, CA, United States", ce 377749 4, ce (-1224194) 4),
  ("San Fransisco", ce 377749 4, ce (-1224194) 4),
  ("New York, New York, United States", ce 407128 4, ce (-74006) 3),
  ("New York, NY, United States", ce 407128 4, ce (-74006) 3),
  ("New York", ce 407128 4, ce (-74006) 3),
  ("NYC", ce 407128 4, ce (-74006) 3),
  ("New York City", ce 407128 4, ce (-74006) 3),
  ("Mapbox US", ce 377749 4, ce (-1224194) 4),
  ("Los Angeles, California, United States", ce 340522 4, ce (-1182437) 4),
  ("Los Angeles, CA, United States", ce 340522 4, ce (-1182437) 4),
  ("Los Angeles", ce 340522 4, ce (-1182437) 4),
  ("Hollywood, California, United States", ce 3409256 5, ce (-11832888) 5),
  ("Hollywood, CA, United States", ce 3409256 5, ce (-11832888) 5),
  ("Hollywood, CA", ce 3409256 5, ce (-11832888) 5),
  ("Hollywood", ce 3409256 5, ce (-11832888) 5),
  ("Chicago, Illinois, United States", ce 418781 4, ce (-876298) 4),
  ("Chicago, IL, United States", ce 418781 4, ce (-876298) 4),
  ("Chicago", ce 418781 4, ce (-876298) 4),
  ("Seattle, Washington, United States", ce 476062 4, ce (-1223321) 4),
  ("Seattle, WA, United States", ce 476062 4, ce (-1223321) 4),
  ("Seattle", ce 476062 4, ce (-1223321) 4),
  ("Austin, Texas, United States", ce 302672 4, ce (-977431) 4),
  ("Austin, TX, United States", ce 302672 4, ce (-977431) 4),
  ("Austin", ce 302672 4, ce (-977431) 4),
  ("San Antonio, Texas, United States", ce 294241 4, ce (-984936) 4),
  ("San Antonio, TX, United States", ce 294241 4, ce (-984936) 4),
  ("San Antonio, TX", ce 294241 4, ce (-984936) 4),
  ("San Antonio, US", ce 294241 4, ce (-984936) 4),
  ("San Antonio", ce 294241 4, ce (-984936) 4),
  ("Boston, Massachusetts, United States", ce 423601 4, ce (-710589) 4),
  ("Boston, MA, United States", ce 423601 4, ce (-710589) 4),
  ("Boston", ce 423601 4, ce (-710589) 4),
  ("Cambridge, Massachusetts, United States", ce 423736 4, ce (-711097) 4),
  ("Cambridge, Massachusetts, US", ce 423736 4, ce (-711097) 4),
  ("Cambridge, MA, United States", ce 423736 4, ce (-711097) 4),
  ("Cambridge, MA", ce 423736 4, ce (-711097) 4),
  ("Cambridge", ce 423736 4, ce (-711097) 4),
  ("Needham, Massachusetts, United States", ce 422811 4, ce (-712364) 4),
  ("Needham, MA, United States", ce 422811 4, ce (-712364) 4),
  ("Needham, MA", ce 422811 4, ce (-712364) 4),
  ("Needham", ce 422811 4, ce (-712364) 4),
  ("Denver, Colorado, United States", ce 397392 4, ce (-1049903) 4),
  ("Denver, CO, United States", ce 397392 4, ce (-1049903) 4),
  ("Denver", ce 397392 4, ce (-1049903) 4),
  ("Washington, District of Columbia, United States", ce 389072 4, ce (-770369) 4),
  ("Washington, DC, United States", ce 389072 4, ce (-770369) 4),
  ("Washington", ce 389072 4, ce (-770369) 4),
  ("Miami, Florida, United States", ce 257617 4, ce (-801918) 4),
  ("Miami, FL, United States", ce 257617 4, ce (-801918) 4),
  ("Miami", ce 257617 4, ce (-801918) 4),
  ("Orlando, Florida, United States", ce 285383 4, ce (-813792) 4),
  ("Orlando, FL, United States", ce 285383 4, ce (-813792) 4),
  ("Orlando, FL", ce 285383 4, ce (-813792) 4),
  ("Orlando", ce 285383 4, ce (-813792) 4),
  ("Lake Mary, Florida, United States", ce 287589 4, ce (-813178) 4),
  ("Lake Mary, FL, United States", ce 287589 4, ce (-813178) 4),
  ("Lake Mary, FL", ce 287589 4, ce (-813178) 4),
  ("Lake Mary", ce 287589 4, ce (-813178) 4),
  ("Portland, Oregon, United States", ce 455152 4, ce (-1226784) 4),
  ("Portland, OR, United States", ce 455152 4, ce (-1226784) 4),
  ("Portland", ce 455152 4, ce (-1226784) 4),
  ("Atlanta, Georgia, United States", ce 33749 3, ce (-84388) 3),
  ("Atlanta, GA, United States", ce 33749 3, ce (-84388) 3),
  ("Atlanta", ce 33749 3, ce (-84388) 3),
  ("Dallas, Texas, United States", ce 327767 4, ce (-96797) 3),
  ("Dallas, TX, United States", ce 327767 4, ce (-96797) 3),
  ("Dallas", ce 327767 4, ce (-96797) 3),
  ("Plano, Texas, United States", ce 330198 4, ce (-966989) 4),
  ("Plano, TX, United States", ce 330198 4, ce (-966989) 4),
  ("Plano, TX", ce 330198 4, ce (-966989) 4),
  ("Plano", ce 330198 4, ce (-966989) 4),
  ("Westlake, Texas, United States", ce 329912 4, ce (-97195) 3),
  ("Westlake, TX, United States", ce 329912 4, ce (-97195) 3),
  ("Westlake, TX", ce 329912 4, ce (-97195) 3),
  ("Westlake", ce 329912 4, ce (-97195) 3),
  ("Houston, Texas, United States", ce 297604 4, ce (-953698) 4),
  ("Houston, TX, United States", ce 297604 4, ce (-953698) 4),
  ("Houston, TX", ce 297604 4, ce (-953698) 4),
  ("Houston", ce 297604 4, ce (-953698) 4),
  ("Detroit, Michigan, United States", ce 423314 4, ce (-830458) 4),
  ("Detroit, MI, United States", ce 423314 4, ce (-830458) 4),
  ("Detroit, MI", ce 423314 4, ce (-830458) 4),
  ("Detroit", ce 423314 4, ce (-830458) 4),
  ("St. Louis, Missouri, United States", ce 38627 3, ce (-901994) 4),
  ("St. Louis, MO, United States", ce 38627 3, ce (-901994) 4),
  ("St. Louis, MO", ce 38627 3, ce (-901994) 4),
  ("St. Louis", ce 38627 3, ce (-901994) 4),
  ("Redmond, Washington, United States", ce 47674 3, ce (-1221215) 4),
  ("Redmond, WA, United States", ce 47674 3, ce (-1221215) 4),
  ("Redmond, WA", ce 47674 3, ce (-1221215) 4),
  ("Redmond", ce 47674 3, ce (-1221215) 4),
  ("North Bend, Washington, United States", ce 474953 4, ce (-1217868) 4),
  ("North Bend, WA, United States", ce 474953 4, ce (-1217868) 4),
  ("North Bend, WA", ce 474953 4, ce (-1217868) 4),
  ("North Bend", ce 474953 4, ce (-1217868) 4),
  ("Honolulu, Hawaii, United States", ce 213099 4, ce (-1578581) 4),
  ("Honolulu, HI, United States", ce 213099 4, ce (-1578581) 4),
  ("Honolulu, HI", ce 213099 4, ce (-1578581) 4),
  ("Honolulu", ce 213099 4, ce (-1578581) 4),
  ("Colorado Springs, Colorado, United States", ce 388339 4, ce (-1048214) 4),
  ("Colorado Springs, CO, United States", ce 388339 4, ce (-1048214) 4),
  ("Colorado Springs, CO", ce 388339 4, ce (-1048214) 4),
  ("Colorado Springs", ce 388339 4, ce (-1048214) 4),
  ("Bastrop, Texas, United States", ce 301104 4, ce (-973153) 4),
  ("Bastrop, TX, United States", ce 301104 4, ce (-973153) 4),
  ("Bastrop, TX", ce 301104 4, ce (-973153) 4),
  ("Bastrop", ce 301104 4, ce (-973153) 4),
  ("Columbia, Maryland, United States", ce 392037 4, ce (-76861) 3),
  ("Columbia, MD, United States", ce 392037 4, ce (-76861) 3),
  ("Columbia, MD", ce 392037 4, ce (-76861) 3),
  ("Columbia", ce 392037 4, ce (-76861) 3),
  ("Southaven, Mississippi, United States", ce 34991 3, ce (-900026) 4),
  ("Southaven, MS, United States", ce 34991 3, ce (-900026) 4),
  ("Southaven, MS", ce 34991 3, ce (-900026) 4),
  ("Southaven", ce 34991 3, ce (-900026) 4),
  ("North Carolina, United States", ce 357596 4, ce (-790193) 4),
  ("North Carolina", ce 357596 4, ce (-790193) 4),
  ("Raleigh, North Carolina, United States", ce 357796 4, ce (-786382) 4),
  ("Raleigh, NC, United States", ce 357796 4, ce (-786382) 4),
  ("Raleigh, NC", ce 357796 4, ce (-786382) 4),
  ("Raleigh", ce 357796 4, ce (-786382) 4),
  ("Huntsville, Alabama, United States", ce 347304 4, ce (-865861) 4),
  ("Huntsville, AL, United States", ce 347304 4, ce (-865861) 4),
  ("Huntsville, AL", ce 347304 4, ce (-865861) 4),
  ("Huntsville", ce 347304 4, ce (-865861) 4),
  ("Nebraska, United States", ce 414925 4, ce (-999018) 4),
  ("Nebraska", ce 414925 4, ce (-999018) 4),
  ("Virginia, United States", ce 377693 4, ce (-781697) 4),
  ("Virginia", ce 377693 4, ce (-781697) 4),
  ("Virgina", ce 377693 4, ce (-781697) 4),
  ("Virgina, United States", ce 377693 4, ce (-781697) 4),
  ("Southern California", ce 340522 4, ce (-1182437) 4),
  ("Northern California", ce 3858 2, ce (-12149) 2),
  ("Indiana, United States", ce 398494 4, ce (-862583) 4),
  ("Indiana", ce 398494 4, ce (-862583) 4),
  ("Ohio, United States", ce 404553 4, ce (-827733) 4),
  ("Ohio", ce 404553 4, ce (-827733) 4),
  ("Tennessee, United States", ce 358594 4, ce (-863619) 4),
  ("Tennessee", ce 358594 4, ce (-863619) 4),
  ("Tennesse", ce 358594 4, ce (-863619) 4),
  ("DC Metro Preferred", ce 389072 4, ce (-770369) 4),
  ("Clay, New York, United States", ce 431848 4, ce (-761727) 4),
  ("Clay, NY, United States", ce 431848 4, ce (-761727) 4),
  ("Clay, NY", ce 431848 4, ce (-761727) 4),
  ("Clay HQ", ce 407406 4, ce (-739964) 4),
  ("Clay", ce 431848 4, ce (-761727) 4),
  ("Pacific Northwest", ce 476062 4, ce (-1223321) 4),
  ("Pacific Northwest OR Arizona", ce 377749 4, ce (-1224194) 4),
  ("Memphis, Tennessee, United States", ce 351495 4, ce (-90049) 3),
  ("Memphis, TN, United States", ce 351495 4, ce (-90049) 3),
  ("Memphis, TN", ce 351495 4, ce (-90049) 3),
  ("Memphis", ce 351495 4, ce (-90049) 3),
  ("Idaho Falls, Idaho, United States", ce 4349 2, ce (-11204) 2),
  ("Idaho Falls, ID, United States", ce 4349 2, ce (-11204) 2),
  ("Idaho Falls, ID", ce 4349 2, ce (-11204) 2),
  ("Idaho Falls", ce 4349 2, ce (-11204) 2),
  ("Phoenix, Arizona, United States", ce 334484 4, ce (-112074) 3),
  ("Phoenix, AZ, United States", ce 334484 4, ce (-112074) 3),
  ("Phoenix", ce 334484 4, ce (-112074) 3),
  ("San Diego, California, United States", ce 327157 4, ce (-1171611) 4),
  ("San Diego, CA, United States", ce 327157 4, ce (-1171611) 4),
  ("San Diego", ce 327157 4, ce (-1171611) 4),
  ("Philadelphia, Pennsylvania, United States", ce 399526 4, ce (-751652) 4),
  ("Philadelphia, PA, United States", ce 399526 4, ce (-751652) 4),
  ("Philadelphia", ce 399526 4, ce (-751652) 4),
  ("Pittsburgh, Pennsylvania, United States", ce 404406 4, ce (-799959) 4),
  ("Pittsburgh, PA, United States", ce 404406 4, ce (-799959) 4),
  ("Pittsburgh, PA", ce 404406 4, ce (-799959) 4),
  ("Pittsburgh", ce 404406 4, ce (-799959) 4),
  ("Irvine, California, United States", ce 336846 4, ce (-1178265) 4),
  ("Irvine, CA, United States", ce 336846 4, ce (-1178265) 4),
  ("Irvine, CA", ce 336846 4, ce (-1178265) 4),
  ("Irvine", ce 336846 4, ce (-1178265) 4),
  ("Palo Alto, California, United States", ce 374419 4, ce (-122143) 3),
  ("Palo Alto, CA, United States", ce 374419 4, ce (-122143) 3),
  ("Palo Alto", ce 374419 4, ce (-122143) 3),
  ("Menlo Park, California, United States", ce 374538 4, ce (-122182) 3),
  ("Menlo Park, CA, United States", ce 374538 4, ce (-122182) 3),
  ("Menlo Park, CA", ce 374538 4, ce (-122182) 3),
  ("Menlo Park", ce 374538 4, ce (-122182) 3),
  ("Mountain View, California, United States", ce 373861 4, ce (-1220839) 4),
  ("Mountain View, CA, United States", ce 373861 4, ce (-1220839) 4),
  ("Mountain View", ce 373861 4, ce (-1220839) 4),
  ("Novato, California, United States", ce 381074 4, ce (-1225697) 4),
  ("Novato, CA, United States", ce 381074 4, ce (-1225697) 4),
  ("Novato", ce 381074 4, ce (-1225697) 4),
  ("Sparks Glencoe, Maryland, United States", ce 395401 4, ce (-766447) 4),
  ("Sparks Glencoe, MD, United States", ce 395401 4, ce (-766447) 4),
  ("Moorpark, California, United States", ce 342856 4, ce (-118882) 3),
  ("Moorpark, CA, United States", ce 342856 4, ce (-118882) 3),
  ("Toronto, Ontario, Canada", ce 436532 4, ce (-793832) 4),
  ("Toronto", ce 436532 4, ce (-793832) 4),
  ("Vancouver, British Columbia, Canada", ce 492827 4, ce (-1231207) 4),
  ("Vancouver", ce 492827 4, ce (-1231207) 4),
  ("Montréal, Quebec, Canada", ce 455017 4, ce (-735673) 4),
  ("Montreal, Quebec, Canada", ce 455017 4, ce (-735673) 4),
  ("Montreal", ce 455017 4, ce (-735673) 4),
  ("Québec City, Quebec, Canada", ce 468139 4, ce (-71208) 3),
  ("Québec City, QC, Canada", ce 468139 4, ce (-71208) 3),
  ("Québec City, QC", ce 468139 4, ce (-71208) 3),
  ("Québec City, QC - Data Center", ce 468139 4, ce (-71208) 3),
  ("Quebec City, Quebec, Canada", ce 468139 4, ce (-71208) 3),
  ("Quebec City, QC, Canada", ce 468139 4, ce (-71208) 3),
  ("Quebec City, QC", ce 468139 4, ce (-71208) 3),
  ("Quebec City", ce 468139 4, ce (-71208) 3),
  ("Calgary, Alberta, Canada", ce 510447 4, ce (-1140719) 4),
  ("Calgary", ce 510447 4, ce (-1140719) 4),
  ("Ottawa, Ontario, Canada", ce 454215 4, ce (-756972) 4),
  ("Ottawa", ce 454215 4, ce (-756972) 4),
  ("Kitchener-Waterloo, Ontario, Canada", ce 434516 4, ce (-804925) 4),
  ("Kitchener-Waterloo, ON, Canada", ce 434516 4, ce (-804925) 4),
  ("Kitchener-Waterloo, ON", ce 434516 4, ce (-804925) 4),
  ("Kitchener-Waterloo", ce 434516 4, ce (-804925) 4),
  ("Nova Scotia, Canada", ce 44682 3, ce (-637443) 4),
  ("Quebec, Canada", ce 468139 4, ce (-71208) 3),
  ("Canada", ce 561304 4, ce (-1063468) 4),
  ("London, England, United Kingdom", ce 515074 4, ce (-1278) 4),
  ("London, United Kingdom", ce 515074 4, ce (-1278) 4),
  ("London", ce 515074 4, ce (-1278) 4),
  ("London, UK", ce 515074 4, ce (-1278) 4),
  ("Mapbox UK", ce 515074 4, ce (-1278) 4),
  ("UK", ce 515074 4, ce (-1278) 4),
  ("United Kingdom", ce 515074 4, ce (-1278) 4),
  ("Manchester, England, United Kingdom", ce 534808 4, ce (-22426) 4),
  ("Manchester", ce 534808 4, ce (-22426) 4),
  ("Edinburgh, Scotland, United Kingdom", ce 559533 4, ce (-31883) 4),
  ("Edinburgh", ce 559533 4, ce (-31883) 4),
  ("Birmingham, England, United Kingdom", ce 524862 4, ce (-18904) 4),
  ("Birmingham", ce 524862 4, ce (-18904) 4),
  ("Berlin, Germany", ce 5252 2, ce 13405 3),
  ("Berlin", ce 5252 2, ce 13405 3),
  ("Paris, France", ce 488566 4, ce 23522 4),
  ("Paris", ce 488566 4, ce 23522 4),
  ("Saint-Denis, France", ce 489356 4, ce 23539 4),
  ("Saint-Denis", ce 489356 4, ce 23539 4),
  ("Aubervilliers, France", ce 489131 4, ce 23831 4),
  ("Aubervilliers", ce 489131 4, ce 23831 4),
  ("Nantes, France", ce 472184 4, ce (-15536) 4),
  ("Nantes", ce 472184 4, ce (-15536) 4),
  ("Lille, France", ce 506372 4, ce 30633 4),
  ("Lille", ce 506372 4, ce 30633 4),
  ("Marseille, France", ce 432965 4, ce 53698 4),
  ("Marseille", ce 432965 4, ce 53698 4),
  ("Montpellier, France", ce 436112 4, ce 38767 4),
  ("Montpellier", ce 436112 4, ce 38767 4),
  ("Anywhere in France", ce 462276 4, ce 22137 4),
  ("France", ce 462276 4, ce 22137 4),
  ("Amsterdam, Netherlands", ce 523676 4, ce 49041 4),
  ("Amsterdam", ce 523676 4, ce 49041 4),
  ("Netherlands", ce 521326 4, ce 52913 4),
  ("Barcelona, Spain", ce 413851 4, ce 21734 4),
  ("Barcelona", ce 413851 4, ce 21734 4),
  ("Santa Oliva, Spain", ce 412533 4, ce 15514 4),
  ("Santa Oliva, Tarragona, Spain", ce 412533 4, ce 15514 4),
  ("Santa Oliva (Tarragona)", ce 412533 4, ce 15514 4),
  ("Santa Oliva", ce 412533 4, ce 15514 4),
  ("Madrid, Spain", ce 404168 4, ce (-37038) 4),
  ("Madrid", ce 404168 4, ce (-37038) 4),
  ("Anywhere in Spain", ce 404168 4, ce (-37038) 4),
  ("Spain", ce 404168 4, ce (-37038) 4),
  ("Rome, Italy", ce 419028 4, ce 124964 4),
  ("Rome", ce 419028 4, ce 124964 4),
  ("Milan, Italy", ce 454642 4, ce 919 2),
  ("Milan", ce 454642 4, ce 919 2),
  ("Vienna, Austria", ce 482082 4, ce 163738 4),
  ("Vienna", ce 482082 4, ce 163738 4),
  ("Zurich, Switzerland", ce 473769 4, ce 85417 4),
  ("Zurich", ce 473769 4, ce 85417 4),
  ("Zürich, Switzerland", ce 473769 4, ce 85417 4),
  ("Zürich, CH", ce 473769 4, ce 85417 4),
  ("Zürich", ce 473769 4, ce 85417 4),
  ("Lausanne, Switzerland", ce 465197 4, ce 66323 4),
  ("Lausanne, CH", ce 465197 4, ce 66323 4),
  ("Lausanne", ce 465197 4, ce 66323 4),
  ("Geneva, Switzerland", ce 462044 4, ce 61432 4),
  ("Geneva, CH", ce 462044 4, ce 61432 4),
  ("Geneva", ce 462044 4, ce 61432 4),
  ("Switzerland", ce 468182 4, ce 82275 4),
  ("Stockholm, Sweden", ce 593293 4, ce 180686 4),
  ("Stockholm", ce 593293 4, ce 180686 4),
  ("Sweden", ce 601282 4, ce 186435 4),
  ("Malmö, Sweden", ce 556059 4, ce 130007 4),
  ("Malmö", ce 556059 4, ce 130007 4),
  ("Helsinki, Finland", ce 601699 4, ce 249384 4),
  ("Helsinki", ce 601699 4, ce 249384 4),
  ("Malmoe, Sweden", ce 556059 4, ce 130007 4),
  ("Malmoe", ce 556059 4, ce 130007 4),
  ("Copenhagen, Denmark", ce 556761 4, ce 125683 4),
  ("Copenhagen", ce 556761 4, ce 125683 4),
  ("Aarhus, Denmark", ce 561629 4, ce 102039 4),
  ("Aarhus", ce 561629 4, ce 102039 4),
  ("Dublin, Ireland", ce 533498 4, ce (-62603) 4),
  ("Dublin", ce 533498 4, ce (-62603) 4),
  ("Brussels, Belgium", ce 508503 4, ce 43517 4),
  ("Brussels", ce 508503 4, ce 43517 4),
  ("Anywhere in Belgium", ce 508503 4, ce 43517 4),
  ("Belgium", ce 508503 4, ce 43517 4),
  ("Lisbon, Portugal", ce 387223 4, ce (-91393) 4),
  ("Portugal", ce 393999 4, ce (-82245) 4),
  ("Lisbon", ce 387223 4, ce (-91393) 4),
  ("Prague, Czech Republic", ce 500755 4, ce 144378 4),
  ("Prague", ce 500755 4, ce 144378 4),
  ("Bratislava, Slovakia", ce 481486 4, ce 171077 4),
  ("Slovakia", ce 481486 4, ce 171077 4),
  ("Cologne, Germany", ce 509375 4, ce 69603 4),
  ("Cologne", ce 509375 4, ce 69603 4),
  ("Köln, Germany", ce 509375 4, ce 69603 4),
  ("Köln", ce 509375 4, ce 69603 4),
  ("Bochum, Germany", ce 514817 4, ce 72165 4),
  ("Bochum", ce 514817 4, ce 72165 4),
  ("Hamburg, Germany", ce 535511 4, ce 99937 4),
  ("Hamburg", ce 535511 4, ce 99937 4),
  ("Warsaw, Poland", ce 522297 4, ce 210122 4),
  ("Warsaw", ce 522297 4, ce 210122 4),
  ("Krakow, Poland", ce 500647 4, ce 199449 4),
  ("Wrocław, Poland", ce 511 1, ce 170333 4),
  ("Wroclaw, Poland", ce 511 1, ce 170333 4),
  ("Wrocław", ce 511 1, ce 170333 4),
  ("Wroclaw", ce 511 1, ce 170333 4),
  ("Kraków, Poland", ce 500647 4, ce 199449 4),
  ("Krakow", ce 500647 4, ce 199449 4),
  ("Kraków", ce 500647 4, ce 199449 4),
  ("Mapbox Poland", ce 522297 4, ce 210122 4),
  ("Vilnius, Lithuania", ce 546872 4, ce 252797 4),
  ("Vilnius", ce 546872 4, ce 252797 4),
  ("Minsk, Belarus", ce 539045 4, ce 275615 4),
  ("Minsk", ce 539045 4, ce 275615 4),
  ("Mapbox Minsk", ce 539045 4, ce 275615 4),
  ("Sofia, Bulgaria", ce 426977 4, ce 233219 4),
  ("Sofia", ce 426977 4, ce 233219 4),
  ("Skopje, North Macedonia", ce 419973 4, ce 21428 3),
  ("Skopje, Macedonia", ce 419973 4, ce 21428 3),
  ("Skopje", ce 419973 4, ce 21428 3),
  ("Munich, Germany", ce 481351 4, ce 11582 3),
  ("Munich", ce 481351 4, ce 11582 3),
  ("Frankfurt, Germany", ce 501109 4, ce 86821 4),
  ("Frankfurt", ce 501109 4, ce 86821 4),
  ("Germany", ce 511657 4, ce 104515 4),
  ("Germany, North", ce 535511 4, ce 99937 4),
  ("Germany, West", ce 509375 4, ce 69603 4),
  ("Luxembourg", ce 496116 4, ce 61319 4),
  ("Luxembourg, Luxembourg", ce 496116 4, ce 61319 4),
  ("Budapest, Hungary", ce 474979 4, ce 190402 4),
  ("Budapest", ce 474979 4, ce 190402 4),
  ("Bucharest, Romania", ce 444268 4, ce 261025 4),
  ("Bucharest", ce 444268 4, ce 261025 4),
  ("Iasi, Romania", ce 471585 4, ce 276014 4),
  ("Iasi", ce 471585 4, ce 276014 4),
  ("Iasi Office", ce 471585 4, ce 276014 4),
  ("Croatia", ce 451 1, ce 152 1),
  ("Bosnia & Herzegovina", ce 439159 4, ce 176791 4),
  ("Bosnia and Herzegovina", ce 439159 4, ce 176791 4),
  ("Italy", ce 418719 4, ce 125674 4),
  ("Limerick, Ireland", ce 526638 4, ce (-86267) 4),
  ("Limerick", ce 526638 4, ce (-86267) 4),
  ("Ireland, United Kingdom", ce 534129 4, ce (-82439) 4),
  ("Singapore, Singapore", ce 13521 4, ce 1038198 4),
  ("Singapore", ce 13521 4, ce 1038198 4),
  ("APAC", ce 13521 4, ce 1038198 4),
  ("Asia-Pacific", ce 13521 4, ce 1038198 4),
  ("Tokyo, Japan", ce 356762 4, ce 1396503 4),
  ("Tokyo", ce 356762 4, ce 1396503 4),
  ("Mapbox Japan", ce 356762 4, ce 1396503 4),
  ("Osaka, Japan", ce 346937 4, ce 1355023 4),
  ("Osaka", ce 346937 4, ce 1355023 4),
  ("Seoul, Korea", ce 375665 4, ce 126978 3),
  ("Seoul, South Korea", ce 375665 4, ce 126978 3),
  ("Seoul", ce 375665 4, ce 126978 3),
  ("Hong Kong, Hong Kong", ce 223193 4, ce 1141694 4),
  ("Hong Kong", ce 223193 4, ce 1141694 4),
  ("Shanghai, China", ce 312304 4, ce 1214737 4),
  ("Shanghai", ce 312304 4, ce 1214737 4),
  ("Beijing, China", ce 399042 4, ce 1164074 4),
  ("Beijing", ce 399042 4, ce 1164074 4),
  ("Chengdu, China", ce 306624 4, ce 1040633 4),
  ("Chengdu", ce 306624 4, ce 1040633 4),
  ("China", ce 358617 4, ce 1041954 4),
  ("Bangalore, India", ce 129716 4, ce 775946 4),
  ("Bangalore", ce 129716 4, ce 775946 4),
  ("Mumbai, India", ce 19076 3, ce 728777 4),
  ("Mumbai", ce 19076 3, ce 728777 4),
  ("Delhi, India", ce 287041 4, ce 771025 4),
  ("Delhi", ce 287041 4, ce 771025 4),
  ("India", ce 205937 4, ce 789629 4),
  ("Karachi, Pakistan", ce 248607 4, ce 670011 4),
  ("Karachi", ce 248607 4, ce 670011 4),
  ("Lahore, Pakistan", ce 315204 4, ce 743587 4),
  ("Lahore", ce 315204 4, ce 743587 4),
  ("Islamabad, Pakistan", ce 336844 4, ce 730479 4),
  ("Islamabad", ce 336844 4, ce 730479 4),
  ("Sydney, Australia", ce (-338688) 4, ce 1512093 4),
  ("Sydney", ce (-338688) 4, ce 1512093 4),
  ("Melbourne, Australia", ce (-378136) 4, ce 1449631 4),
  ("Melbourne", ce (-378136) 4, ce 1449631 4),
  ("Brisbane, Australia", ce (-274698) 4, ce 1530251 4),
  ("Brisbane", ce (-274698) 4, ce 1530251 4),
  ("Australia", ce (-252744) 4, ce 1337751 4),
  ("Auckland, New Zealand", ce (-368485) 4, ce 1747633 4),
  ("Auckland", ce (-368485) 4, ce 1747633 4),
  ("New Zealand", ce (-409006) 4, ce 174886 3),
  ("Wellington, New Zealand", ce (-412865) 4, ce 1747762 4),
  ("Wellington", ce (-412865) 4, ce 1747762 4),
  ("LATAM", ce (-235505) 4, ce (-466333) 4),
  ("Americas", ce 398283 4, ce (-985795) 4),
  ("São Paulo, Brazil", ce (-235505) 4, ce (-466333) 4),
  ("São Paulo", ce (-235505) 4, ce (-466333) 4),
  ("Mexico City, Mexico", ce 194326 4, ce (-991332) 4),
  ("Mexico City", ce 194326 4, ce (-991332) 4),
  ("Buenos Aires, Argentina", ce (-346037) 4, ce (-583816) 4),
  ("Buenos Aires", ce (-346037) 4, ce (-583816) 4),
  ("Argentina", ce (-346037) 4, ce (-583816) 4),
  ("Bogotá, Colombia", ce 4711 3, ce (-740721) 4),
  ("Bogotá", ce 4711 3, ce (-740721) 4),
  ("Santiago, Chile", ce (-334489) 4, ce (-706693) 4),
  ("Santiago", ce (-334489) 4, ce (-706693) 4),
  ("Casablanca, Morocco", ce 335731 4, ce (-75898) 4),
  ("Casablanca", ce 335731 4, ce (-75898) 4),
  ("Dubai, United Arab Emirates", ce 252048 4, ce 552708 4),
  ("Dubai", ce 252048 4, ce 552708 4),
  ("Sharjah, United Arab Emirates", ce 2535 2, ce 5542 2),
  ("Sharjah", ce 2535 2, ce 5542 2),
  ("UAE", ce 244539 4, ce 543773 4),
  ("United Arab Emirates", ce 244539 4, ce 543773 4),
  ("Abu Dhabi", ce 244539 4, ce 543773 4),
  ("Abu Dhabi, United Arab Emirates", ce 244539 4, ce 543773 4),
  ("Beirut, Lebanon", ce 338938 4, ce 355018 4),
  ("Beirut", ce 338938 4, ce 355018 4),
  ("Middle East", ce 292985 4, ce 425509 4),
  ("Turkey", ce 389637 4, ce 352433 4),
  ("Doha, Qatar", ce 252854 4, ce 51531 3),
  ("Doha", ce 252854 4, ce 51531 3),
  ("Amman, Jordan", ce 319539 4, ce 359106 4),
  ("Amman", ce 319539 4, ce 359106 4),
  ("Tel Aviv, Israel", ce 320853 4, ce 347818 4),
  ("Tel Aviv", ce 320853 4, ce 347818 4),
  ("Cape Town, South Africa", ce (-339249) 4, ce 184241 4),
  ("Cape Town", ce (-339249) 4, ce 184241 4),
  ("Johannesburg, South Africa", ce (-262041) 4, ce 280473 4),
  ("Johannesburg", ce (-262041) 4, ce 280473 4),
  ("Lagos, Nigeria", ce 65244 4, ce 33792 4),
  ("Lagos", ce 65244 4, ce 33792 4),
  ("Cairo, Egypt", ce 300444 4, ce 312357 4),
  ("Cairo", ce 300444 4, ce 312357 4),
  ("Alexandria, Egypt", ce 312001 4, ce 299187 4),
  ("Alexandria", ce 312001 4, ce 299187 4),
  ("Pune, India", ce 185204 4, ce 738567 4),
  ("Pune", ce 185204 4, ce 738567 4),
  ("Gurugram, India", ce 284089 4, ce 770378 4),
  ("Gurugram", ce 284089 4, ce 770378 4),
  ("Kuala Lumpur, Malaysia", ce 3139 3, ce 1016869 4),
  ("Kuala Lumpur", ce 3139 3, ce 1016869 4),
  ("Indonesia", ce (-7893) 4, ce 1139213 4),
  ("Bengaluru, India", ce 129716 4, ce 775946 4),
  ("Bengaluru", ce 129716 4, ce 775946 4),
  ("Bengaluru, Karnataka, India", ce 129716 4, ce 775946 4),
  ("Bengaluru, Karnataka", ce 129716 4, ce 775946 4),
  ("Hyderabad, India", ce 17385 3, ce 784867 4),
  ("Hyderabad", ce 17385 3, ce 784867 4),
  ("Chennai, India", ce 130827 4, ce 802707 4),
  ("Chennai", ce 130827 4, ce 802707 4),
  ("Taipei, Taiwan", ce 25033 3, ce 1215654 4),
  ("Taipei", ce 25033 3, ce 1215654 4),
  ("Taiwan, Hsinchu", ce 248036 4, ce 1209686 4),
  ("Hsinchu, Taiwan", ce 248036 4, ce 1209686 4),
  ("Hsinchu", ce 248036 4, ce 1209686 4),
  ("BR, SP, Cajamar", ce (-23355) 3, ce (-468789) 4),
  ("IN, TS, Virtual", ce 17385 3, ce 784867 4),
  ("FR, Satolas-et-bonce", ce 45731 3, ce 5091 3),
  ("PL, Gdansk", ce 54352 3, ce 186466 4),
  ("DE, TH, Erfurt", ce 509848 4, ce 110299 4),
  ("CR, H, Heredia", ce 99986 4, ce (-84117) 3),
  ("FR, Courbevoie", ce 488976 4, ce 22567 4),
  ("IN, HR, Gurgaon", ce 284595 4, ce 770266 4),
  ("BR, MG, Betim", ce (-19967) 3, ce (-44197) 3),
  ("FR, Clichy", ce 489039 4, ce 2306 3),
  ("MX, MEX, Cuautitlan Izcalli", ce 19646 3, ce (-99247) 3),
  ("CR, Virtual", ce 99281 4, ce (-840907) 4),
  ("ES, Zaragoza", ce 416488 4, ce (-8891) 4),
  ("FR, Augny", ce 49076 3, ce 6129 3),
  ("JP, 14, Sagamihara", ce 35571 3, ce 139373 3),
  ("DE, Helmstedt", ce 52227 3, ce 11009 3),
  ("FR, Bretigny Sur Orge", ce 4861 2, ce 2307 3),
  ("GB, NTH, Kettering", ce 52398 3, ce (-727) 3),
  ("GB, Tilbury", ce 51463 3, ce 358 3),
  ("DE, Kaiserslautern", ce 4944 2, ce 7749 3),
  ("GB, Minworth", ce 5253 2, ce (-178) 2),
  ("JP, 11, Saitama", ce 358617 4, ce 1396455 4),
  ("JP, 27, Sakai", ce 345733 4, ce 1354828 4),
  ("NL, Den Haag", ce 520705 4, ce 43007 4),
  ("PL, Swiebodzin", ce 52247 3, ce 15533 3),
  ("DE, NW, Horn-bad Meinberg", ce 5187 2, ce 8983 3),
  ("ES, Figueres", ce 42267 3, ce 2961 3),
  ("FR, Senlis", ce 49207 3, ce 2586 3),
  ("JP, 11, Sayama", ce 35852 3, ce 139413 3),
  ("SE, Eskilstuna", ce 59371 3, ce 16509 3),
  ("BR, SP, Osasco", ce (-23532) 3, ce (-46791) 3),
  ("DE, HE, Bad Hersfeld", ce 50872 3, ce 9708 3),
  ("DE, NW, Dortmund", ce 515136 4, ce 74653 4),
  ("GB, NTT, Mansfield", ce 53143 3, ce (-1199) 3),
  ("IN, GJ, Ahmedabad", ce 230225 4, ce 725714 4),
  ("IN, MH, Thane", ce 192183 4, ce 729781 4),
  ("JP, 12, Ichikawa", ce 35719 3, ce 139931 3),
  ("JP, 12, Nagareyama-shi", ce 35856 3, ce 139902 3),
  ("MX, Cuauhtémoc", ce 19427 3, ce (-99167) 3),
  ("AU, NSW, Kemps Creek", ce (-33849) 3, ce 150764 3),
  ("DE, BE, Mittenwalde", ce 52257 3, ce 13536 3),
  ("DE, BW, Pforzheim", ce 48891 3, ce 8698 3),
  ("FR, 42, Montluel", ce 4585 2, ce 505 2),
  ("GB, NBL, Northampton", ce 522405 4, ce (-9027) 4),
  ("IN, UP, Noida", ce 285355 4, ce 77391 3),
  ("MX, NLE, Apodaca", ce 2578 2, ce (-100188) 3),
  ("Bangkok, Thailand", ce 137563 4, ce 1005018 4),
  ("Bangkok", ce 137563 4, ce 1005018 4),
  ("Guangzhou, China", ce 231291 4, ce 1132644 4),
  ("Guangzhou", ce 231291 4, ce 1132644 4),
  ("Shenzhen, China", ce 225431 4, ce 1140579 4),
  ("Shenzhen", ce 225431 4, ce 1140579 4),
  ("Oakland, California, United States", ce 378044 4, ce (-1222711) 4),
  ("Oakland, CA, United States", ce 378044 4, ce (-1222711) 4),
  ("Oakland", ce 378044 4, ce (-1222711) 4),
  ("Santa Clara, California, United States", ce 373541 4, ce (-1219552) 4),
  ("Santa Clara, CA, United States", ce 373541 4, ce (-1219552) 4),
  ("Santa Clara", ce 373541 4, ce (-1219552) 4),
  ("Redwood City, California, United States", ce 374852 4, ce (-1222364) 4),
  ("Redwood City, CA, United States", ce 374852 4, ce (-1222364) 4),
  ("Redwood City", ce 374852 4, ce (-1222364) 4),
  ("Sunnyvale, California, United States", ce 373688 4, ce (-1220363) 4),
  ("Sunnyvale, CA, United States", ce 373688 4, ce (-1220363) 4),
  ("Sunnyvale, CA - US", ce 373688 4, ce (-1220363) 4),
  ("Sunnyvale, CA", ce 373688 4, ce (-1220363) 4),
  ("Sunnyvale", ce 373688 4, ce (-1220363) 4),
  ("San Jose, California, United States", ce 373382 4, ce (-1218863) 4),
  ("San Jose, CA, United States", ce 373382 4, ce (-1218863) 4),
  ("San Jose, CA - US", ce 373382 4, ce (-1218863) 4),
  ("San Jose, CA", ce 373382 4, ce (-1218863) 4),
  ("San Jose", ce 373382 4, ce (-1218863) 4),
  ("San Jose Office", ce 373382 4, ce (-1218863) 4),
  ("Foster City, California, United States", ce 375585 4, ce (-1222711) 4),
  ("Foster City, CA, United States", ce 375585 4, ce (-1222711) 4),
  ("Foster City, CA - US", ce 375585 4, ce (-1222711) 4),
  ("Foster City, CA", ce 375585 4, ce (-1222711) 4),
  ("Foster City", ce 375585 4, ce (-1222711) 4),
  ("Tulsa, Oklahoma, United States", ce 36154 3, ce (-959928) 4),
  ("Tulsa, OK, United States", ce 36154 3, ce (-959928) 4),
  ("Tulsa, OK - US", ce 36154 3, ce (-959928) 4),
  ("Tulsa, OK", ce 36154 3, ce (-959928) 4),
  ("Tulsa", ce 36154 3, ce (-959928) 4),
  ("Abilene, Texas, United States", ce 324487 4, ce (-997331) 4),
  ("Abilene, TX, United States", ce 324487 4, ce (-997331) 4),
  ("Abilene, TX - US", ce 324487 4, ce (-997331) 4),
  ("Abilene, TX", ce 324487 4, ce (-997331) 4),
  ("Abilene", ce 324487 4, ce (-997331) 4),
  ("Cheyenne, Wyoming, United States", ce 4114 2, ce (-1048197) 4),
  ("Cheyenne, WY, United States", ce 4114 2, ce (-1048197) 4),
  ("Cheyenne, WY - US", ce 4114 2, ce (-1048197) 4),
  ("Cheyenne, WY", ce 4114 2, ce (-1048197) 4),
  ("Cheyenne", ce 4114 2, ce (-1048197) 4),
  ("Arvada, Colorado, United States", ce 398028 4, ce (-1050875) 4),
  ("Arvada, CO, United States", ce 398028 4, ce (-1050875) 4),
  ("Arvada, CO - US", ce 398028 4, ce (-1050875) 4),
  ("Arvada, CO", ce 398028 4, ce (-1050875) 4),
  ("Arvada", ce 398028 4, ce (-1050875) 4),
  ("Ponchatoula, Louisiana, United States", ce 304391 4, ce (-904415) 4),
  ("Ponchatoula, LA, United States", ce 304391 4, ce (-904415) 4),
  ("Ponchatoula, LA - US", ce 304391 4, ce (-904415) 4),
  ("Ponchatoula, LA", ce 304391 4, ce (-904415) 4),
  ("Ponchatoula", ce 304391 4, ce (-904415) 4),
  ("Amarillo, Texas, United States", ce 35222 3, ce (-1018313) 4),
  ("Amarillo, TX, United States", ce 35222 3, ce (-1018313) 4),
  ("Amarillo, TX - US", ce 35222 3, ce (-1018313) 4),
  ("Amarillo, TX", ce 35222 3, ce (-1018313) 4),
  ("Amarillo", ce 35222 3, ce (-1018313) 4),
  ("Springfield, Ohio, United States", ce 399242 4, ce (-838088) 4),
  ("Springfield, OH, United States", ce 399242 4, ce (-838088) 4),
  ("Springfield, OH - US", ce 399242 4, ce (-838088) 4),
  ("Springfield, OH", ce 399242 4, ce (-838088) 4),
  ("Bellevue, Washington, United States", ce 476101 4, ce (-1222015) 4),
  ("Bellevue, WA, United States", ce 476101 4, ce (-1222015) 4),
  ("Bellevue, WA - US", ce 476101 4, ce (-1222015) 4),
  ("Bellevue, WA", ce 476101 4, ce (-1222015) 4),
  ("Bellevue", ce 476101 4, ce (-1222015) 4),
  ("Quincy, Washington, United States", ce 472343 4, ce (-1198526) 4),
  ("Quincy, WA, United States", ce 472343 4, ce (-1198526) 4),
  ("Quincy, WA - US", ce 472343 4, ce (-1198526) 4),
  ("Quincy, WA", ce 472343 4, ce (-1198526) 4),
  ("Quincy, WA - Data Center", ce 472343 4, ce (-1198526) 4),
  ("Quincy", ce 472343 4, ce (-1198526) 4),
  ("Bluffdale, Utah, United States", ce 404847 4, ce (-1119388) 4),
  ("Bluffdale, UT, United States", ce 404847 4, ce (-1119388) 4),
  ("Bluffdale, UT - US", ce 404847 4, ce (-1119388) 4),
  ("Bluffdale, UT", ce 404847 4, ce (-1119388) 4),
  ("Bluffdale, UT - Data Center", ce 404847 4, ce (-1119388) 4),
  ("Bluffdale", ce 404847 4, ce (-1119388) 4),
  ("6105 Tennyson Pkwy, Suite 300, Plano TX 75024", ce 330198 4, ce (-966989) 4),
  ("Ashburn, Virginia, United States", ce 390438 4, ce (-774874) 4),
  ("Ashburn, VA, United States", ce 390438 4, ce (-774874) 4),
  ("Ashburn, VA - US", ce 390438 4, ce (-774874) 4),
  ("Ashburn, VA", ce 390438 4, ce (-774874) 4),
  ("Ashburn, VA - Data Center", ce 390438 4, ce (-774874) 4),
  ("Ashburn", ce 390438 4, ce (-774874) 4),
  ("Elk Grove Village, Illinois, United States", ce 420039 4, ce (-879703) 4),
  ("Elk Grove Village, IL, United States", ce 420039 4, ce (-879703) 4),
  ("Elk Grove Village, IL - US", ce 420039 4, ce (-879703) 4),
  ("Elk Grove Village, IL", ce 420039 4, ce (-879703) 4),
  ("Elk Grove Village, IL - Data Center", ce 420039 4, ce (-879703) 4),
  ("Elk Grove Village", ce 420039 4, ce (-879703) 4),
  ("Kansas City, Missouri, United States", ce 390997 4, ce (-945786) 4),
  ("Kansas City, MO, United States", ce 390997 4, ce (-945786) 4),
  ("Kansas City, MO - US", ce 390997 4, ce (-945786) 4),
  ("Kansas City, MO", ce 390997 4, ce (-945786) 4),
  ("Kansas City, MO - Data Center", ce 390997 4, ce (-945786) 4),
  ("Kansas City", ce 390997 4, ce (-945786) 4),
  ("Bristol, England, United Kingdom", ce 514545 4, ce (-25879) 4),
  ("Bristol", ce 514545 4, ce (-25879) 4),
  ("Tampa, Florida, United States", ce 279506 4, ce (-824572) 4),
  ("Tampa, FL, United States", ce 279506 4, ce (-824572) 4),
  ("Tampa", ce 279506 4, ce (-824572) 4),
  ("Manila, Philippines", ce 145995 4, ce 1209842 4),
  ("Manila", ce 145995 4, ce 1209842 4),
  ("Kyiv, Ukraine", ce 504501 4, ce 305234 4),
  ("Kyiv", ce 504501 4, ce 305234 4),
  ("Kiev, Ukraine", ce 504501 4, ce 305234 4),
  ("Kiev", ce 504501 4, ce 305234 4),
  ("Belgrade, Serbia", ce 447866 4, ce 204489 4),
  ("Belgrade", ce 447866 4, ce 204489 4),
  ("Riyadh, Saudi Arabia", ce 247136 4, ce 466753 4),
  ("Riyadh", ce 247136 4, ce 466753 4),
  ("Reykjanesbaer, Iceland", ce 639981 4, ce (-225618) 4),
  ("Reykjanesbaer, IS", ce 639981 4, ce (-225618) 4),
  ("Reykjanesbaer - IS", ce 639981 4, ce (-225618) 4),
  ("Reykjanesbaer", ce 639981 4, ce (-225618) 4),
  ("Reykjanesbær, Iceland", ce 639981 4, ce (-225618) 4),
  ("Reykjanesbær, IS", ce 639981 4, ce (-225618) 4),
  ("Reykjanesbær - IS", ce 639981 4, ce (-225618) 4),
  ("Reykjanesbær", ce 639981 4, ce (-225618) 4),
  ("Sao Paulo, Brazil", ce (-235505) 4, ce (-466333) 4),
  ("Sao Paulo", ce (-235505) 4, ce (-466333) 4),
  ("Remote", ce 398283 4, ce (-985795) 4),
  ("Remote - US", ce 398283 4, ce (-985795) 4),
  ("Any location", ce 398283 4, ce (-985795) 4),
  ("Multiple Locations", ce 398283 4, ce (-985795) 4),
  ("USA", ce 398283 4, ce (-985795) 4),
  ("USA | Relocate", ce 398283 4, ce (-985795) 4),
  ("United States", ce 398283 4, ce (-985795) 4),
  ("United Stated", ce 398283 4, ce (-985795) 4),
  ("US", ce 398283 4, ce (-985795) 4),
  ("North America", ce 398283 4, ce (-985795) 4),
  ("East Coast", ce 407128 4, ce (-74006) 3),
  ("West Coast", ce 377749 4, ce (-1224194) 4),
  ("Western Region", ce 377749 4, ce (-1224194) 4),
  ("Bay Area or Remote", ce 377749 4, ce (-1224194) 4),
  ("Bay Area", ce 377749 4, ce (-1224194) 4),
  ("NY or SF", ce 390608 4, ce (-983284) 4),
  ("SF or NY", ce 390608 4, ce (-983284) 4),
  ("Ohio or Tennesse", ce 381574 4, ce (-845681) 4),
  ("Europe", ce 508503 4, ce 43517 4),
  ("EMEA", ce 508503 4, ce 43517 4),
  ("São Paolo", ce (-235505) 4, ce (-466333) 4),
  ("São Paolo, Brazil", ce (-235505) 4, ce (-466333) 4),
  ("India - Remote", ce 287041 4, ce 771025 4),
  ("Remote - India", ce 287041 4, ce 771025 4),
  ("Hawthorne, CA", ce 339164 4, ce (-1183526) 4),
  ("Starbase, TX", ce 259971 4, ce (-971566) 4),
  ("Cape Canaveral, FL", ce 283922 4, ce (-806077) 4),
  ("Vandenberg, CA", ce 34742 3, ce (-1205724) 4),
  ("Woodinville, WA", ce 477543 4, ce (-1221635) 4),
  ("McGregor, TX", ce 314438 4, ce (-974094) 4),
  ("Belo Horizonte, State of Minas Gerais, Brazil", ce (-199167) 4, ce (-439345) 4),
  ("Ho Chi Minh City, Vietnam", ce 108231 4, ce 1066297 4),
  ("Costa Rica, San José, San José", ce 99281 4, ce (-840907) 4),
  ("Hanoi, Vietnam", ce 210285 4, ce 1058542 4),
  ("Greece, Attica, Athens", ce 379838 4, ce 237275 4),
  ("Haifa, Israel", ce 32794 3, ce 349896 4),
  ("Nong Yai, Nong Yai District, Chon Buri, Thailand", ce 131614 4, ce 1010025 4),
  ("Vietnam, Ho Chi Minh City, Ho Chi Minh City", ce 108231 4, ce 1066297 4),
  ("Estonia, Harjumaa, Tallinn", ce 59437 3, ce 247536 4),
  ("Norway, Oslo, Oslo", ce 599139 4, ce 107522 4),
  ("Malaysia, Selangor, Cyberjaya", ce 29213 4, ce 1016559 4),
  ("Mexico, Querétaro, Querétaro City", ce 205888 4, ce (-1003899) 4),
  ("Türkiye, Istanbul, Istanbul", ce 410082 4, ce 289784 4),
  ("Zhubei, Zhubei City, Hsinchu County, Taiwan", ce 248297 4, ce 1210115 4),
  ("Arlington, VA", ce 388816 4, ce (-77091) 3),
  ("Canandaigua, NY", ce 428875 4, ce (-772814) 4),
  ("Inzai, Chiba, Japan", ce 358349 4, ce 1401444 4),
  ("Istanbul, İstanbul, Türkiye", ce 410082 4, ce 289784 4),
  ("Kuwait City, Kuwait", ce 293759 4, ce 479774 4),
  ("Long Beach, CA", ce 337701 4, ce (-1181937) 4),
  ("Sungai Buloh, Selangor, Malaysia", ce 32098 4, ce 101576 3),
  ("Vietnam, Ha Noi - Capital, Hanoi", ce 210285 4, ce 1058542 4),
  ("Costa Rica", ce 97489 4, ce (-837534) 4),
  ("Malaysia, Johor, Johor Bahru", ce 14927 4, ce 1037414 4),
  ("Nairobi, Kenya", ce (-12921) 4, ce 368219 4),
  ("Antwerp", ce 512194 4, ce 44025 4),
  ("Athens, Greece", ce 379838 4, ce 237275 4),
  ("Berkeley, California", ce 378715 4, ce (-122273) 3),
  ("Brazil, Distrito Federal, Brasilia", ce (-157942) 4, ce (-478822) 4),
  ("Centurion, South Africa", ce (-258603) 4, ce 281896 4),
  ("Clearwater, FL", ce 279659 4, ce (-828001) 4),
  ("Colombia, Distrito Capital, Bogota", ce 4711 3, ce (-740721) 4),
  ("Fort Meade, MD", ce 391084 4, ce (-767436) 4),
  ("Guam", ce 134443 4, ce 1447937 4),
  ("Hamina, Finland", ce 605702 4, ce 271979 4),
  ("Hanoi", ce 210285 4, ce 1058542 4),
  ("Ho Chi Minh City, Ho Chi Minh City, Vietnam", ce 108231 4, ce 1066297 4),
  ("Ho Chi Minh, Ho Chi Minh City, Vietnam", ce 108231 4, ce 1066297 4),
  ("Israel, Haifa, Haifa", ce 32794 3, ce 349896 4),
  ("Kenya, Nairobi City, Nairobi", ce (-12921) 4, ce 368219 4),
  ("Latvia, Riga, Riga", ce 569496 4, ce 241052 4),
  ("Oslo, Norway", ce 599139 4, ce 107522 4),
  ("Peru, Lima, Lima", ce (-120464) 4, ce (-770428) 4),
  ("Puyan, Puyan Township, Changhua County, Taiwan", ce 240167 4, ce 1205167 4),
  ("Ramat Gan, Israel", ce 320809 4, ce 348142 4),
  ("Saint Vulbas", ce 458333 4, ce 52833 4),
  ("Saudi Arabia, Eastern Province, Dammam", ce 264207 4, ce 500888 4),
  ("Skien, Norway", ce 592096 4, ce 9609 3),
  ("South Africa, KwaZulu-Natal, Durban", ce (-298587) 4, ce 310218 4),
  ("Viby, Denmark", ce 561278 4, ce 101606 4),
  ("Vietnam, Ho Chi Minh City, Ho Chi Minh City, Vietnam, Ha Noi - Capital, Hanoi", ce 108231 4, ce 1066297 4),
  ("Xianxi, Xianxi Township, Changhua County, Taiwan", ce 240167 4, ce 1205167 4),
  ("Colombia, Distrito Capital, Bogota, Colombia, Antioquia, Medellín, Peru, Lima, Lima, Ecuador, Pichincha, Quito", ce 4711 3, ce (-740721) 4),
  ("Beaverton", ce 454871 4, ce (-1228038) 4),
  ("Beaverton, Oregon", ce 454871 4, ce (-1228038) 4),
  ("Beaverton, OR", ce 454871 4, ce (-1228038) 4),
  ("Herzliya", ce 321624 4, ce 348447 4),
  ("Herzliya, Israel", ce 321624 4, ce 348447 4),
  ("Culver City", ce 340211 4, ce (-1183965) 4),
  ("Culver City, California", ce 340211 4, ce (-1183965) 4),
  ("Culver City, CA", ce 340211 4, ce (-1183965) 4),
  ("Waltham", ce 423765 4, ce (-712356) 4),
  ("Waltham, Massachusetts", ce 423765 4, ce (-712356) 4),
  ("Waltham, MA", ce 423765 4, ce (-712356) 4),
  ("Cork", ce 518985 4, ce (-84756) 4),
  ("Cork, Ireland", ce 518985 4, ce (-84756) 4),
  ("Suzhou", ce 312989 4, ce 1205853 4),
  ("Suzhou, China", ce 312989 4, ce 1205853 4),
  ("SF / NY", ce 390608 4, ce (-983284) 4),
  ("Cary", ce 357915 4, ce (-787811) 4),
  ("Cary, North Carolina", ce 357915 4, ce (-787811) 4),
  ("Cary, NC", ce 357915 4, ce (-787811) 4),
  ("Longtan", ce 248647 4, ce 1212075 4),
  ("Longtan, Taiwan", ce 248647 4, ce 1212075 4),
  ("New Albany, OH", ce 400817 4, ce (-828088) 4),
  ("New Albany, Ohio", ce 400817 4, ce (-828088) 4),
  ("Rayville, LA", ce 324774 4, ce (-917554) 4),
  ("Rayville, Louisiana", ce 324774 4, ce (-917554) 4),
  ("Montgomery, AL", ce 323668 4, ce (-863) 1),
  ("Montgomery, Alabama", ce 323668 4, ce (-863) 1),
  ("Montgomery", ce 323668 4, ce (-863) 1),
  ("Yokohama", ce 354437 4, ce 139638 3),
  ("Yokohama, Japan", ce 354437 4, ce 139638 3),
  ("Macao", ce 221987 4, ce 1135439 4),
  ("Macau", ce 221987 4, ce 1135439 4),
  ("Newton County, GA", ce 335557 4, ce (-838502) 4),
  ("Newton County, Georgia", ce 335557 4, ce (-838502) 4),
  ("SF Office - 171 2nd, 4th floor", ce 377749 4, ce (-1224194) 4),
  ("Fort Worth, TX", ce 327555 4, ce (-973308) 4),
  ("Fort Worth, Texas", ce 327555 4, ce (-973308) 4),
  ("Fort Worth", ce 327555 4, ce (-973308) 4),
  ("Kuna, ID", ce 434918 4, ce (-11642) 2),
  ("Kuna, Idaho", ce 434918 4, ce (-11642) 2),
  ("Kuna", ce 434918 4, ce (-11642) 2),
  ("Los Lunas, NM", ce 348068 4, ce (-1067333) 4),
  ("Los Lunas, New Mexico", ce 348068 4, ce (-1067333) 4),
  ("Los Lunas", ce 348068 4, ce (-1067333) 4),
  ("Makati City", ce 145547 4, ce 1210244 4),
  ("Makati City, Philippines", ce 145547 4, ce 1210244 4),
  ("Turkiye", ce 389637 4, ce 352433 4),
  ("Altoona, IA", ce 416472 4, ce (-934647) 4),
  ("Altoona, Iowa", ce 416472 4, ce (-934647) 4),
  ("Altoona", ce 416472 4, ce (-934647) 4),
  ("El Paso, TX", ce 317619 4, ce (-106485) 3),
  ("El Paso, Texas", ce 317619 4, ce (-106485) 3),
  ("El Paso", ce 317619 4, ce (-106485) 3),
  ("ID, Jakarta", ce (-62088) 4, ce 1068456 4),
  ("Jakarta", ce (-62088) 4, ce 1068456 4),
  ("Jakarta, Indonesia", ce (-62088) 4, ce 1068456 4),
  ("Livorno", ce 4355 2, ce 1031 2),
  ("Livorno, Italy", ce 4355 2, ce 1031 2),
  ("PH, Pasay City", ce 145378 4, ce 1209972 4),
  ("Pasay City", ce 145378 4, ce 1209972 4),
  ("Pasay City, Philippines", ce 145378 4, ce 1209972 4),
  ("Papillion, NE", ce 411544 4, ce (-960425) 4),
  ("Papillion, Nebraska", ce 411544 4, ce (-960425) 4),
  ("Papillion", ce 411544 4, ce (-960425) 4),
  ("Aiken, SC", ce 335604 4, ce (-817195) 4),
  ("Aiken, South Carolina", ce 335604 4, ce (-817195) 4),
  ("Aiken", ce 335604 4, ce (-817195) 4),
  ("CO, Bogota", ce 4711 3, ce (-740721) 4),
  ("Henrico, VA", ce 375407 4, ce (-77436) 3),
  ("Henrico, Virginia", ce 375407 4, ce (-77436) 3),
  ("Henrico", ce 375407 4, ce (-77436) 3),
  ("IT, BG, Cividate Al Piano", ce 455833 4, ce 98333 4),
  ("Cividate Al Piano", ce 455833 4, ce 98333 4),
  ("Cividate Al Piano, Italy", ce 455833 4, ce 98333 4),
  ("Nabern", ce 486167 4, ce 95167 4),
  ("Nabern, Germany", ce 486167 4, ce 95167 4),
  ("SA, Jeddah", ce 214858 4, ce 391925 4),
  ("Jeddah", ce 214858 4, ce 391925 4),
  ("Jeddah, Saudi Arabia", ce 214858 4, ce 391925 4)]

/-- Direct (case-sensitive) atlas lookup: `location_str in LOCATION_COORDINATES`. -/
def atlasLookup (key : String) : Option (Coord × Coord) :=
  (LOCATION_COORDINATES.find? (fun e => e.1 = key)).map (fun e => e.2)

/-- Case-insensitive atlas scan (`key.lower() == location_lower`). -/
def atlasLookupCI (loc : String) : Option (Coord × Coord) :=
  (LOCATION_COORDINATES.find? (fun e => strLower e.1 = strLower loc)).map (fun e => e.2)

/-- Direct-then-case-insensitive lookup, the repeated two-step the source
performs after each candidate extraction. -/
def atlasLookup2 (loc : String) : Option (Coord × Coord) :=
  match atlasLookup loc with
  | some r => some r
  | none => atlasLookupCI loc

/-- `([A-Za-z\s]+,\s*[A-Z]{2})` — the "City, ST" extraction pattern. -/
def cityStateRE : RE :=
  rgroup 1 (rcat [rplus (RE.cls fun c => c.isAlpha || isSpaceChar c), rchar ',',
                  rsp, RE.rep (RE.cls Char.isUpper) 2 2 true])

/-- `^(.+?)\s*\((?:Hybrid|In-Office|In Office|Distributed)\)$` -/
def workplaceTypeRE : RE :=
  rcat [RE.bos, rgroup 1 (rcat [rdot, RE.star rdot false]), rsp, rchar '(',
        ralt [rstr "Hybrid", rstr "In-Office", rstr "In Office",
              rstr "Distributed"],
        rchar ')', RE.eos]

/-- `[^,;]+` -/
def rnotCommaSemi : RE := rplus (RE.cls fun c => c ≠ ',' && c ≠ ';')

/-- The four office patterns of `extract_city_from_office_location`. -/
def officePat1 : RE := rcat [rstr "office", rsp, rchar '-', rsp, rgroup 1 rnotCommaSemi]
def officePat2 : RE := rcat [rgroup 1 rnotCommaSemi, rsp1, rstr "office"]
def officePat3 : RE := rcat [rstr "office", rchar ',', rsp, rgroup 1 rnotCommaSemi]
def officePat4 : RE :=
  rcat [rgroup 1 (rplus (RE.cls fun c => c.isLower || isSpaceChar c)), rchar ',',
        rsp, rplus (RE.cls Char.isLower), rsp1, rstr "office"]

def officePatterns : List RE := [officePat1, officePat2, officePat3, officePat4]

/-- `\s*(office|location|offices)\s*$` — suffix removal after a hit. -/
def officeSuffixRE : RE :=
  rcat [rsp, rgroup 1 (ralt [rstr "office", rstr "location", rstr "offices"]),
        rsp, RE.eos]

/-- `\s*office\s*` — the cleanup substitution before the key scan. -/
def officeWordRE : RE := rcat [rsp, rstr "office", rsp]

/-- The part of `s` before the first occurrence of `pat`
(`s.split(pat)[0]` in Python). -/
def beforeFirstAux (pat : List Char) : List Char → List Char
  | [] => []
  | c :: rest =>
    if pat.isPrefixOf (c :: rest) then []
    else c :: beforeFirstAux pat rest

def beforeFirst (s pat : String) : String :=
  ⟨beforeFirstAux pat.data s.data⟩

/-- `key.split(",")[0].strip().lower()` — the city part of an atlas key. -/
def atlasCityName (key : String) : String :=
  strLower (pyStrip ⟨(splitOnChar ',' key.data).headD []⟩)

/-- The pattern loop of `extract_city_from_office_location`: first pattern
whose search hits yields its suffix-cleaned first group (if nonempty). -/
def officePatternScan (location_lower : String) : List RE → Option String
  | [] => none
  | p :: rest =>
    match reSearchL true p location_lower.data with
    | some m =>
      let city := pyStrip (capGroup location_lower.data m 1)
      let city2 := reSub true officeSuffixRE "" city
      if city2 = "" then officePatternScan location_lower rest
      else some (pyStrip city2)
    | none => officePatternScan location_lower rest

/-- Embeds `extract_city_from_office_location` (src/ai.py lines 961-1001). -/
def extract_city_from_office_location (location : String) : Option String :=
  let location_lower := strLower location
  match officePatternScan location_lower officePatterns with
  | some city => some city
  | none =>
    match reSearchL true cityStateRE location.data with
    | some m => some (pyStrip (capGroup location.data m 1))
    | none =>
      let clean := reSub false officeWordRE " " location_lower
      (LOCATION_COORDINATES.find? (fun e =>
          strContains clean (atlasCityName e.1) ∧ (atlasCityName e.1).length > 2)).map
        (fun e => atlasCityName e.1)

/-- Embeds `get_coordinates` (src/ai.py lines 1004-1097): the ordered
fallback chain over the atlas.  Returns `(lat?, lon?)`. -/
def get_coordinates (location : String) : Option Coord × Option Coord :=
  if location = "" ∨ pyStrip location = "" then (none, none)
  else
    let l0 := pyStrip location
    let l1 := replaceAll l0 "Sao Paolo" "São Paulo"
    let l2 := replaceAll l1 "Sao Paulo" "São Paulo"
    let l3 := replaceAll l2 "São Paolo" "São Paulo"
    let location_str :=
      if strContains l3 " | " then pyStrip (beforeFirst l3 " | ")
      else l3
    match atlasLookup location_str with
    | some r => (some r.1, some r.2)
    | none =>
    let location_lower := strLower location_str
    match atlasLookupCI location_str with
    | some r => (some r.1, some r.2)
    | none =>
    match (reSearchL false cityStateRE location_str.data).bind (fun m =>
        atlasLookup2 (pyStrip (capGroup location_str.data m 1))) with
    | some r => (some r.1, some r.2)
    | none =>
    match (if strContains location_str " - Data Center" then
             atlasLookup2 (pyStrip (replaceAll location_str " - Data Center" ""))
           else none) with
    | some r => (some r.1, some r.2)
    | none =>
    match (reSearchL true workplaceTypeRE location_str.data).bind (fun m =>
        atlasLookup2 (pyStrip (capGroup location_str.data m 1))) with
    | some r => (some r.1, some r.2)
    | none =>
    match LOCATION_COORDINATES.find? (fun e =>
        strContains location_lower (atlasCityName e.1) ∨
        strContains (strLower e.1) location_lower) with
    | some e => (some e.2.1, some e.2.2)
    | none =>
    match extract_city_from_office_location location_str with
    | some city =>
      match LOCATION_COORDINATES.find? (fun e =>
          atlasCityName e.1 = strLower city ∨
          strContains (strLower e.1) (strLower city)) with
      | some e => (some e.2.1, some e.2.2)
      | none => (none, none)
    | none => (none, none)

/-!  ## Timestamps (`normalize_datetime_to_utc_iso`, src/ai.py lines
1414-1425).

A Python `datetime` is embedded as its calendar fields plus an optional
UTC offset in whole minutes (`None` = naive).  `astimezone(timezone.utc)`
becomes exact calendar arithmetic through a day-number linearization (the
CPython ordinal calendar).  Python raises `OverflowError` when a
conversion leaves year range 1..9999; theorems about converted values
carry the corresponding validity hypothesis instead. -/

structure PyDatetime where
  year : Nat
  month : Nat
  day : Nat
  hour : Nat
  minute : Nat
  second : Nat
  microsecond : Nat
  utcOffsetMinutes : Option Int
deriving DecidableEq

def isLeapYear (y : Nat) : Bool :=
  y % 4 = 0 && (y % 100 ≠ 0 || y % 400 = 0)

def daysInMonth (y : Nat) : Nat → Nat
  | 1 => 31
  | 2 => if isLeapYear y then 29 else 28
  | 3 => 31
  | 4 => 30
  | 5 => 31
  | 6 => 30
  | 7 => 31
  | 8 => 31
  | 9 => 30
  | 10 => 31
  | 11 => 30
  | 12 => 31
  | _ => 0

/-- The constructor invariant of Python `datetime` (field ranges). -/
def isValidPyDatetime (dt : PyDatetime) : Bool :=
  1 ≤ dt.year && dt.year ≤ 9999 && 1 ≤ dt.month && dt.month ≤ 12 &&
    1 ≤ dt.day && dt.day ≤ daysInMonth dt.year dt.month && dt.hour ≤ 23 &&
    dt.minute ≤ 59 && dt.second ≤ 59 && dt.microsecond ≤ 999999

/-- Days in months `1..m-1` of year `y`. -/
def daysBeforeMonth (y : Nat) : Nat → Nat
  | 0 => 0
  | 1 => 0
  | m + 1 => daysBeforeMonth y m + daysInMonth y m

/-- Days between 0001-01-01 and the given date (CPython ordinal minus 1). -/
def toOrdinal (y m d : Nat) : Nat :=
  365 * (y - 1) + (y - 1) / 4 + (y - 1) / 400 - (y - 1) / 100 +
    daysBeforeMonth y m + (d - 1)

/-- Month lookup from a day-of-year remainder (`fuel` counts months left). -/
def findMonthAux (y : Nat) : Nat → Nat → Nat → Nat × Nat
  | 0, m, doy => (m, doy + 1)
  | fuel + 1, m, doy =>
    if doy < daysInMonth y m then (m, doy + 1)
    else findMonthAux y fuel (m + 1) (doy - daysInMonth y m)

/-- Date from a day number (CPython `_ord2ymd` on ordinal `n + 1`). -/
def fromOrdinal (n : Nat) : Nat × Nat × Nat :=
  let n400 := n / 146097
  let r1 := n % 146097
  let n100 := r1 / 36524
  let r2 := r1 % 36524
  let n4 := r2 / 1461
  let r3 := r2 % 1461
  let n1 := r3 / 365
  let r4 := r3 % 365
  let year := n400 * 400 + n100 * 100 + n4 * 4 + n1 + 1
  if n1 = 4 ∨ n100 = 4 then (year - 1, 12, 31)
  else
    let (m, d) := findMonthAux year 11 1 r4
    (year, m, d)

/-- `dt.astimezone(timezone.utc)` for aware datetimes;
`dt.replace(tzinfo=timezone.utc)` for naive ones — exactly the two branches
of `normalize_datetime_to_utc_iso`. -/
def toUTC (dt : PyDatetime) : PyDatetime :=
  match dt.utcOffsetMinutes with
  | none => { dt with utcOffsetMinutes := some 0 }
  | some off =>
    let t : Int :=
      ((toOrdinal dt.year dt.month dt.day * 1440 + dt.hour * 60 + dt.minute : Nat) : Int)
        - off
    let tn := t.toNat
    let dayn := tn / 1440
    let rem := tn % 1440
    let ymd := fromOrdinal dayn
    ⟨ymd.1, ymd.2.1, ymd.2.2, rem / 60, rem % 60, dt.second, dt.microsecond,
     some 0⟩

/-- `"%02d" % n` for `n ≤ 99` (every use is bounded by field validity). -/
def two0 (n : Nat) : List Char :=
  [Nat.digitChar (n / 10 % 10), Nat.digitChar (n % 10)]

/-- `"%04d" % n` for `n ≤ 9999`. -/
def four0 (n : Nat) : List Char :=
  [Nat.digitChar (n / 1000 % 10), Nat.digitChar (n / 100 % 10),
   Nat.digitChar (n / 10 % 10), Nat.digitChar (n % 10)]

/-- `dt.isoformat()` for a UTC-aware datetime with zero microseconds. -/
def isoformatUTC (dt : PyDatetime) : String :=
  ⟨four0 dt.year ++ '-' :: two0 dt.month ++ '-' :: two0 dt.day ++
   'T' :: two0 dt.hour ++ ':' :: two0 dt.minute ++ ':' :: two0 dt.second ++
   "+00:00".data⟩

/-- Embeds `normalize_datetime_to_utc_iso` (src/ai.py lines 1414-1425):

    if not dt: return None
    if dt.tzinfo is None: dt = dt.replace(tzinfo=timezone.utc)
    else: dt = dt.astimezone(timezone.utc)
    return dt.replace(microsecond=0).isoformat().replace("+00:00", "Z")
-/
def normalize_datetime_to_utc_iso (dt : Option PyDatetime) : Option String :=
  match dt with
  | none => none
  | some d =>
    let u := toUTC d
    some (replaceAll (isoformatUTC { u with microsecond := 0 }) "+00:00" "Z")

/-- Decides `^\d{4}-\d{2}-\d{2}T\d{2}:\d{2}:\d{2}Z$` — the timestamp shape
the specification requires of every emitted timestamp. -/
def matchesTimestampRegex (s : String) : Bool :=
  match s.data with
  | [y1, y2, y3, y4, a1, m1, m2, a2, d1, d2, a3, h1, h2, a4, n1, n2, a5,
     c1, c2, z] =>
    y1.isDigit && y2.isDigit && y3.isDigit && y4.isDigit && a1 = '-' &&
      m1.isDigit && m2.isDigit && a2 = '-' && d1.isDigit && d2.isDigit &&
      a3 = 'T' && h1.isDigit && h2.isDigit && a4 = ':' && n1.isDigit &&
      n2.isDigit && a5 = ':' && c1.isDigit && c2.isDigit && z = 'Z'
  | _ => false

/-!  ## Source adapters — canonical rows.

Each adapter embedding is the per-job body of its Python extractor loop:
the canonical dict each loop appends becomes a `Row`.  File reading /
JSON decoding and (for Apple/Uber/Ashby) the raw `posted_at` derivation
are inputs of the surrounding code and enter as explicit fields.  -/

/-- The canonical job record each adapter emits (field set and order of
the `fieldnames` list of src/ai.py, minus `date`, which `main` assigns later). -/
structure Row where
  url : String
  title : String
  location : String
  company : String
  ats_id : String
  ats_type : String
  salary_currency : Option String
  salary_period : Option String
  salary_summary : Option String
  experience : Option String
  lat : Option Coord
  lon : Option Coord
  posted_at : Option String
deriving DecidableEq

/-- Python `a or b` on strings ("" is falsy). -/
def pyOr (a b : String) : String := if a = "" then b else a

/-- Python `"sep".join(l)`. -/
def joinSep (sep : String) : List String → String
  | [] => ""
  | [x] => x
  | x :: y :: rest => x ++ sep ++ joinSep sep (y :: rest)

/-- One parsed Ashby job as the loop body of `extract_ashby_jobs`
(src/ai.py lines 1758-1798) consumes it: the pydantic fields it reads,
the compensation triple `extract_compensation_data` produced for it, and
the `posted_at` value the raw-job lookup plus `posted_at_from_source`
produced (lines 1773-1777). -/
structure AshbyJobCtx where
  id : String
  title : Option String
  location : Option String
  job_url : Option String
  apply_url : Option String
  compSalaryCurrency : Option String
  compSalaryPeriod : Option String
  compSalarySummary : Option String
  rawPostedAt : Option String

/-- The rows `extract_ashby_jobs` appends for one parsed job. -/
def extract_ashby_rows (job : AshbyJobCtx) (company_name : String) : List Row :=
  let location_str := job.location.getD ""
  let location_str := normalize_location_by_company location_str company_name
  let locations := split_locations location_str
  let job_url := pyOr (job.job_url.getD "") (pyOr (job.apply_url.getD "") "")
  let posted_at := if job_url ≠ "" then job.rawPostedAt else none
  locations.map fun loc =>
    { url := job_url, title := pyStrip (job.title.getD ""), location := loc,
      company := company_name, ats_id := job.id, ats_type := "ashby",
      salary_currency := job.compSalaryCurrency,
      salary_period := job.compSalaryPeriod,
      salary_summary := job.compSalarySummary, experience := none,
      lat := (get_coordinates loc).1, lon := (get_coordinates loc).2,
      posted_at := posted_at }

/-- One raw Meta job dict as `extract_meta_jobs` reads it
(src/ai.py lines 2716-2750). -/
structure MetaRawJob where
  url : Option String
  title : Option String
  id : Option String
  locations : Option (List String)
  location : Option String
  updated_time : Option String

/-- `job_data.get("locations") or job_data.get("location")` followed by the
list / string / fallback branches of `extract_meta_jobs`. -/
def metaLocationValues (j : MetaRawJob) : List String :=
  match j.locations with
  | some (x :: xs) => ((x :: xs).filter (fun s => s ≠ "")).map pyStrip
  | _ =>
    match j.location with
    | some s => [pyStrip s]
    | none => [""]

/-- The rows `extract_meta_jobs` appends for one raw job.  Note the raw
`updated_time` JSON field is passed through as `posted_at` unchanged. -/
def extract_meta_rows (j : MetaRawJob) (company_name : String) : List Row :=
  let url := pyStrip (j.url.getD "")
  let title := pyStrip (j.title.getD "")
  let ats_id := pyStrip (pyOr (j.id.getD "") (pyOr url ""))
  (metaLocationValues j).flatMap fun raw_loc =>
    (split_locations (normalize_location_by_company raw_loc company_name)).map
      fun loc =>
        { url := url, title := title, location := loc, company := company_name,
          ats_id := ats_id, ats_type := "meta", salary_currency := none,
          salary_period := none, salary_summary := none, experience := none,
          lat := (get_coordinates loc).1, lon := (get_coordinates loc).2,
          posted_at := j.updated_time }

/-- One raw Apple/Uber job dict as `extract_apple_jobs` /
`extract_uber_jobs` read it (src/ai.py lines 2814-2885 and 2902-2975).
`parsedPostedAt` is the outcome of the `postingDate` / `creation_date`
parsing chain (lines 2837-2862 resp. 2923-2952), which only feeds the
`posted_at` column and is abstracted as an input here. -/
structure BespokeRawJob where
  url : Option String
  title : Option String
  positionId : Option String
  id : Option String
  locations : Option (List String)
  location : Option String
  parsedPostedAt : Option String

/-- The `locations`-array / `location`-string / `"N/A"` fallback shared by
the Apple and Uber extractors. -/
def bespokeLocationStr (j : BespokeRawJob) : String :=
  let location_str :=
    match j.locations with
    | some (x :: xs) => joinSep "; " (((x :: xs).filter (fun s => s ≠ "")).map pyStrip)
    | _ => pyStrip (j.location.getD "")
  if location_str = "" then "N/A" else location_str

/-- The rows `extract_apple_jobs` appends for one raw job. -/
def extract_apple_rows (j : BespokeRawJob) (company_name : String) : List Row :=
  let url := pyStrip (j.url.getD "")
  let title := pyStrip (j.title.getD "")
  let ats_id := pyStrip (pyOr (j.positionId.getD "") (pyOr (j.id.getD "") url))
  if url = "" ∨ title = "" then []
  else
    let location_str := normalize_location_by_company (bespokeLocationStr j) company_name
    (split_locations location_str).map fun loc =>
      { url := url, title := title, location := loc, company := company_name,
        ats_id := ats_id, ats_type := "apple", salary_currency := none,
        salary_period := none, salary_summary := none, experience := none,
        lat := (get_coordinates loc).1, lon := (get_coordinates loc).2,
        posted_at := j.parsedPostedAt }

/-- The rows `extract_uber_jobs` appends for one raw job. -/
def extract_uber_rows (j : BespokeRawJob) (company_name : String) : List Row :=
  let url := pyStrip (j.url.getD "")
  let title := pyStrip (j.title.getD "")
  let ats_id := pyStrip (pyOr (j.id.getD "") url)
  if url = "" ∨ title = "" then []
  else
    let location_str := normalize_location_by_company (bespokeLocationStr j) company_name
    (split_locations location_str).map fun loc =>
      { url := url, title := title, location := loc, company := company_name,
        ats_id := ats_id, ats_type := "uber", salary_currency := none,
        salary_period := none, salary_summary := none, experience := none,
        lat := (get_coordinates loc).1, lon := (get_coordinates loc).2,
        posted_at := j.parsedPostedAt }

/-- The rows `extract_cursor_jobs` appends for one raw job
(src/ai.py lines 2768-2797): an empty location stays the empty string. -/
def extract_cursor_rows (j : MetaRawJob) (company_name : String) : List Row :=
  let url := pyStrip (j.url.getD "")
  let title := pyStrip (j.title.getD "")
  let location := pyStrip (j.location.getD "")
  if url = "" ∨ title = "" then []
  else
    (split_locations (normalize_location_by_company location company_name)).map
      fun loc =>
        { url := url, title := title, location := loc, company := company_name,
          ats_id := url, ats_type := "cursor", salary_currency := none,
          salary_period := none, salary_summary := none, experience := none,
          lat := (get_coordinates loc).1, lon := (get_coordinates loc).2,
          posted_at := none }

/-!  ## The diff & ledger writer and `date` preservation
(src/ai.py `main`, lines 3622-3884, and `find_new_jobs` /
`find_removed_jobs` / `find_most_recent_ai_csv`, lines 3300-3392).

CSV rows (Python dicts from `csv.DictReader`) are association lists; a
Python dict assignment keeps the position of an existing key and appends
a new one (`alSet`).  File contents enter as explicit row lists; the I/O
error fallbacks of the source (unreadable file → empty state) are the
`Option.getD []` defaults.  -/

/-- A CSV row / JSON-ish dict: ordered key-value pairs. -/
abbrev CsvRow := List (String × String)

/-- Python dict assignment on an association list. -/
def alSet {α : Type} : List (String × α) → String → α → List (String × α)
  | [], k, v => [(k, v)]
  | e :: rest, k, v => if e.1 = k then (k, v) :: rest else e :: alSet rest k v

/-- Python dict lookup. -/
def alGet {α : Type} (d : List (String × α)) (k : String) : Option α :=
  (d.find? (fun e => e.1 = k)).map (fun e => e.2)

/-- `row.get(k, "")`. -/
def rowGet (r : CsvRow) (k : String) : String :=
  (alGet r k).getD ""

/-- `row.pop(k, None)`. -/
def rowPop (r : CsvRow) (k : String) : CsvRow :=
  r.filter (fun e => e.1 ≠ k)

/-- The four deprecated-column pops applied to inherited ledger rows. -/
def popDeprecated (r : CsvRow) : CsvRow :=
  rowPop (rowPop (rowPop (rowPop r "employment_type") "is_remote") "salary_min")
    "salary_max"

/-- The non-empty stripped urls of a row list (the url sets `main` builds). -/
def csvUrls (rows : List CsvRow) : List String :=
  (rows.map (fun r => pyStrip (rowGet r "url"))).filter (fun u => u ≠ "")

/-- Embeds `find_new_jobs` (src/ai.py lines 3327-3358): rows of the current
snapshot whose url is non-empty and absent from the previous snapshot. -/
def find_new_jobs (current previous : List CsvRow) : List CsvRow :=
  let previous_urls := csvUrls previous
  current.filter fun r =>
    let u := pyStrip (rowGet r "url")
    u ≠ "" ∧ ¬ previous_urls.contains u

/-- Embeds `find_removed_jobs` (src/ai.py lines 3361-3392). -/
def find_removed_jobs (current previous : List CsvRow) : List CsvRow :=
  let current_urls := csvUrls current
  previous.filter fun r =>
    let u := pyStrip (rowGet r "url")
    u ≠ "" ∧ ¬ current_urls.contains u

/-- One of the ledger loops of `main`: for each row whose guard holds, assign
`dict[stripped url] = transform(row)`; other rows are skipped. -/
def upsertRows (keep : CsvRow → Bool) (tr : CsvRow → CsvRow)
    (rows : List CsvRow) (init : List (String × CsvRow)) :
    List (String × CsvRow) :=
  rows.foldl
    (fun d row =>
      if keep row then alSet d (pyStrip (rowGet row "url")) (tr row) else d)
    init

/-- The removed-ledger dict `main` builds (lines 3724-3756): retain prior
`rm_ai.csv` rows with a non-empty url still absent from the current
snapshot, then upsert the newly removed rows of this run (non-empty url);
deprecated columns are popped either way. -/
def updateRemovedLedger (currentUrls : List String) (priorRm removedJobs : List CsvRow) :
    List (String × CsvRow) :=
  let existing := upsertRows
    (fun row =>
      !(pyStrip (rowGet row "url") == "") &&
        !(currentUrls.contains (pyStrip (rowGet row "url"))))
    popDeprecated priorRm []
  upsertRows (fun job => !(pyStrip (rowGet job "url") == "")) popDeprecated
    removedJobs existing

/-- The new-ledger dict `main` builds (lines 3781-3811): retain prior
`new_ai.csv` rows whose non-empty url is still current, then upsert this
new rows of this run stamped with `date_added = today_str`. -/
def updateNewLedger (currentUrls : List String) (priorNew newJobs : List CsvRow)
    (today_str : String) : List (String × CsvRow) :=
  let existing := upsertRows
    (fun row =>
      !(pyStrip (rowGet row "url") == "") &&
        currentUrls.contains (pyStrip (rowGet row "url")))
    popDeprecated priorNew []
  upsertRows (fun job => !(pyStrip (rowGet job "url") == ""))
    (fun job => alSet (popDeprecated job) "date_added" today_str)
    newJobs existing

/-- Whether a url keys an entry of a url-keyed dict. -/
def urlInDict (d : List (String × CsvRow)) (u : String) : Bool :=
  d.any (fun e => e.1 = u)

/-- The `rm_ai.csv` state after the previous-snapshot branch of `main`:
written rows when the dict is non-empty, otherwise the file is deleted
(`none`).  Inputs are the current and previous snapshot rows and the prior
ledger file content (`none` = absent). -/
def rmLedgerAfterRun (currentRows previousRows : List CsvRow)
    (priorRm : Option (List CsvRow)) : Option (List CsvRow) :=
  let d := updateRemovedLedger (csvUrls currentRows) (priorRm.getD [])
    (find_removed_jobs currentRows previousRows)
  if d = [] then none else some (d.map (fun e => e.2))

/-- The `new_ai.csv` state after the previous-snapshot branch of `main`:
written rows when the dict is non-empty; otherwise the file is left
untouched (prior content persists). -/
def newLedgerAfterRun (currentRows previousRows : List CsvRow)
    (priorNew : Option (List CsvRow)) (today_str : String) :
    Option (List CsvRow) :=
  let d := updateNewLedger (csvUrls currentRows) (priorNew.getD [])
    (find_new_jobs currentRows previousRows) today_str
  if d = [] then priorNew else some (d.map (fun e => e.2))

/-- A dated snapshot file `ai-DD-MM-YYYY.csv`: name, mtime, rows.  The
list order models the `glob` enumeration order. -/
structure SnapshotFile where
  name : String
  mtime : Nat
  rows : List CsvRow

/-- Embeds `find_most_recent_ai_csv` (src/ai.py lines 3300-3324):
optionally drop the file of today, then take the maximum by mtime (Python `max`
returns the first of several maxima). -/
def find_most_recent_ai_csv (files : List SnapshotFile) (excludeToday : Bool)
    (todayName : String) : Option SnapshotFile :=
  let files := if excludeToday then files.filter (fun f => f.name ≠ todayName)
               else files
  match files with
  | [] => none
  | f :: rest => some (rest.foldl (fun best g => if g.mtime > best.mtime then g else best) f)

/-- One step of the `existing_dates` pass over the pre-existing canonical
snapshot (lines 3626-3632): plain dict assignment for a row with non-empty
url and date, so the last occurrence of a url wins. -/
def canonDateStep (d : List (String × String)) (row : CsvRow) :
    List (String × String) :=
  let url := pyStrip (rowGet row "url")
  let dv := pyStrip (rowGet row "date")
  if url ≠ "" ∧ dv ≠ "" then alSet d url dv else d

/-- The `existing_dates` pass over the pre-existing canonical snapshot
(lines 3622-3636); a missing or unreadable file contributes nothing. -/
def existingDatesFromCanonical (canonical : Option (List CsvRow)) :
    List (String × String) :=
  (canonical.getD []).foldl canonDateStep []

/-- One step of the second `existing_dates` pass (lines 3641-3647): only
urls not already present are added, so the first occurrence wins. -/
def prevDateStep (d : List (String × String)) (row : CsvRow) :
    List (String × String) :=
  let url := pyStrip (rowGet row "url")
  let dv := pyStrip (rowGet row "date")
  if url ≠ "" ∧ dv ≠ "" ∧ (alGet d url).isNone then alSet d url dv else d

/-- The second `existing_dates` pass over the chosen dated snapshot (lines
3638-3652). -/
def addDatesFromPrevious (d0 : List (String × String)) (prevRows : List CsvRow) :
    List (String × String) :=
  prevRows.foldl prevDateStep d0

/-- The full `existing_dates` construction: the canonical file first, then
the most recent dated snapshot — `find_most_recent_ai_csv(exclude_today=False)`,
so the file of today itself is eligible. -/
def buildExistingDates (canonical : Option (List CsvRow))
    (files : List SnapshotFile) (todayName : String) : List (String × String) :=
  let d0 := existingDatesFromCanonical canonical
  match find_most_recent_ai_csv files false todayName with
  | some f => addDatesFromPrevious d0 f.rows
  | none => d0

/-- The date-assignment loop (lines 3654-3663): preserve the stored date
for a known non-empty url, otherwise stamp the current UTC time string. -/
def setJobDates (existing : List (String × String)) (now : String)
    (jobs : List CsvRow) : List CsvRow :=
  jobs.map fun job =>
    let url := pyStrip (rowGet job "url")
    match (if url ≠ "" then alGet existing url else none) with
    | some d => alSet job "date" d
    | none => alSet job "date" now

/-!  ## The enrichment pass (`enrich_jobs_with_description_data`,
src/ai.py lines 3225-3297).

Jobs here are the adapter dicts: values are strings, numbers or `None`.
`get_job_description_fast` walks the scraped JSON blobs on disk, so it
enters as an oracle `getDesc`; the salary/experience extractors are the
embedded ones above.  -/

/-- A JSON-ish job-dict value. -/
inductive JVal where
  | str (v : String) : JVal
  | num (v : Coord) : JVal
  | null : JVal
deriving DecidableEq

/-- Python truthiness of a (possibly missing) dict value. -/
def jTruthy : Option JVal → Bool
  | some (JVal.str v) => v ≠ ""
  | some (JVal.num c) => ¬ c.mant = 0
  | some JVal.null => false
  | none => false

abbrev JobDict := List (String × JVal)

/-- Decimal rendering of an embedded number (`str(float)` for the short
decimals that occur; only feeds the description oracle). -/
def coordRepr (c : Coord) : String :=
  let a := c.mant.natAbs
  let sign := if c.mant < 0 then "-" else ""
  if c.exp = 0 then sign ++ Nat.repr a
  else
    let ip := a / 10 ^ c.exp
    let fp := (Nat.repr (a % 10 ^ c.exp)).data
    sign ++ Nat.repr ip ++ "." ++
      ⟨List.replicate (c.exp - fp.length) '0' ++ fp⟩

/-- `str(job.get(k, "") or "")` for the identity fields the pass reads. -/
def pyStrField (j : JobDict) (k : String) : String :=
  let v := alGet j k
  if jTruthy v then
    match v with
    | some (JVal.str s) => s
    | some (JVal.num c) => coordRepr c
    | _ => ""
  else ""

/-- The per-job body of `enrich_jobs_with_description_data`. -/
def enrichStep (getDesc : String → String → String → String → String → Option String)
    (job : JobDict) : JobDict :=
  let job_url := pyStrip (pyStrField job "url")
  let company := pyStrip (pyStrField job "company")
  let title := pyStrip (pyStrField job "title")
  let ats_id := pyStrip (pyStrField job "ats_id")
  let ats_type := pyStrip (pyStrField job "ats_type")
  if job_url = "" ∨ company = "" ∨ title = "" then job
  else
    match getDesc job_url company title ats_id ats_type with
    | none => alSet job "experience" JVal.null
    | some description =>
      if description = "" then alSet job "experience" JVal.null
      else
        let job1 :=
          if jTruthy (alGet job "salary_summary") then job
          else
            match (extract_salary_from_description description).1 with
            | some salary_str =>
              if salary_str = "" then job
              else
                let j2 := alSet job "salary_summary" (JVal.str salary_str)
                match (parse_salary (some salary_str)).2.2 with
                | some cur =>
                  if cur ≠ "" ∧ ¬ jTruthy (alGet j2 "salary_currency") then
                    alSet j2 "salary_currency" (JVal.str cur)
                  else j2
                | none => j2
            | none => job
        let expv := (extract_experience_from_description description).1
        alSet job1 "experience"
          (match expv with
           | some n => JVal.str (Nat.repr n)
           | none => JVal.null)

/-- Embeds `enrich_jobs_with_description_data` (src/ai.py lines 3225-3297);
the Python loop mutates each job in place and returns the same list. -/
def enrich_jobs_with_description_data
    (getDesc : String → String → String → String → String → Option String)
    (jobs : List JobDict) : List JobDict :=
  jobs.map (enrichStep getDesc)

/-!  ## Declarative date lookups (used to state the date-preservation
property) and concrete inputs used by the theorems below. -/

/-- Left-biased choice (used to state lookup precedence). -/
def orOpt {α : Type} : Option α → Option α → Option α
  | some x, _ => some x
  | none, b => b

/-- The date of the last row of `rows` carrying url `u` with a non-empty
date — what a Python dict holds after assigning every qualifying row. -/
def lastDateIn : List CsvRow → String → Option String
  | [], _ => none
  | r :: rest, u =>
    match lastDateIn rest u with
    | some x => some x
    | none =>
      if pyStrip (rowGet r "url") = u ∧ pyStrip (rowGet r "date") ≠ "" then
        some (pyStrip (rowGet r "date"))
      else none

/-- The date of the first row of `rows` carrying url `u` with a non-empty
date — what add-if-absent insertion keeps. -/
def firstDateIn : List CsvRow → String → Option String
  | [], _ => none
  | r :: rest, u =>
    if pyStrip (rowGet r "url") = u ∧ pyStrip (rowGet r "date") ≠ "" then
      some (pyStrip (rowGet r "date"))
    else firstDateIn rest u

/-- The rows of the dated snapshot `find_most_recent_ai_csv` picks. -/
def chosenSnapshotRows (files : List SnapshotFile) (todayName : String) :
    List CsvRow :=
  match find_most_recent_ai_csv files false todayName with
  | some f => f.rows
  | none => []

/-- The enrichment scenario description of the specification. -/
def c6desc : String :=
  "The salary range for this role is $150,000 - $180,000 per year. Requires 5+ years of experience building distributed systems."

/-- A description oracle that always returns `c6desc`. -/
def c6getDesc : String → String → String → String → String → Option String :=
  fun _ _ _ _ _ => some c6desc

/-- A job lacking `salary_summary`, as the enrichment scenario requires. -/
def c6job : JobDict :=
  [("url", JVal.str "https://jobs.example.com/1"),
   ("title", JVal.str "Software Engineer"),
   ("location", JVal.str "Remote"),
   ("company", JVal.str "Acme"),
   ("ats_id", JVal.str "1"),
   ("ats_type", JVal.str "ashby"),
   ("salary_currency", JVal.null),
   ("salary_period", JVal.null),
   ("salary_summary", JVal.null),
   ("experience", JVal.null)]

/-- A description whose only monetary amount is `$19,999`. -/
def c8desc : String := "The fee is $19,999 per year."

/-- A parsed Ashby job posting with two pipe-separated locations. -/
def c5job : AshbyJobCtx :=
  ⟨"ash-1", some "Engineer", some "San Francisco | New York",
   some "https://jobs.ashbyhq.com/acme/1", none, some "USD", some "YEAR",
   some "$100K - $150K", some "2024-03-10T14:12:00Z"⟩

/-- A raw Meta job whose `updated_time` is an epoch-seconds string. -/
def c4meta : MetaRawJob :=
  ⟨some "https://www.metacareers.com/jobs/1/", some "Engineer", some "1",
   none, some "San Francisco", some "1710079920"⟩

/-- An aware datetime (UTC+2, with microseconds) for the C4 witness. -/
def c4dt : PyDatetime := ⟨2024, 3, 10, 14, 12, 5, 123456, some 120⟩

/-- An older dated snapshot holding the only stored date for a url. -/
def c3old : SnapshotFile :=
  ⟨"ai-01-01-2025.csv", 1, [[("url", "https://j/1"), ("date", "2025-01-01T00:00:00Z")]]⟩

/-- A more recent dated snapshot not containing that url. -/
def c3new : SnapshotFile :=
  ⟨"ai-02-01-2025.csv", 2, [[("url", "https://j/2"), ("date", "2025-01-02T00:00:00Z")]]⟩

/-- The single job of the current run, whose url only `c3old` dates. -/
def c3jobs : List CsvRow := [[("url", "https://j/1")]]

/-- A one-row snapshot used by the ledger counterexample. -/
def c1row : CsvRow := [("url", "https://j/1")]

/-- An Apple/Uber raw job with url and title but no location data. -/
def c10job : BespokeRawJob :=
  ⟨some "https://jobs.example.com/ap1", some "Engineer", some "P-1", none,
   none, none, none⟩

/-- A Meta/Cursor raw job with url and title but no location data. -/
def c10meta : MetaRawJob :=
  ⟨some "https://jobs.example.com/m1", some "Engineer", some "1", none, none,
   none⟩

/-- An Ashby job context with url and title but no location. -/
def c10ashby : AshbyJobCtx :=
  ⟨"a-1", some "Engineer", none, some "https://jobs.example.com/as1", none,
   none, none, none, none⟩

/-- A description oracle that finds no description, so the enrichment pass
only initializes `experience`. -/
def c9getDesc : String → String → String → String → String → Option String :=
  fun _ _ _ _ _ => none

/-- A job that already carries a truthy `salary_summary`. -/
def c9job : JobDict :=
  [("url", JVal.str "https://jobs.example.com/9"),
   ("title", JVal.str "Researcher"),
   ("company", JVal.str "Acme"),
   ("salary_summary", JVal.str "$100,000-$120,000"),
   ("posted_at", JVal.str "2024-01-01T00:00:00Z")]

/-- A job whose url is empty, which the enrichment pass skips. -/
def c9emptyJob : JobDict :=
  [("url", JVal.str ""), ("title", JVal.str "X"),
   ("company", JVal.str "Acme")]

end JobMap

namespace JobMap

/-- C7: `split_locations` satisfies the documented contract: pipe splitting
takes precedence over semicolon splitting (semicolons survive inside
pipe-split fragments), fragments are trimmed, empties are dropped, and a
fully-empty result collapses to the single-element list `[""]` so that
downstream still emits one row. -/
theorem split_locations_contract (location_str : String) :
    split_locations location_str = splitLocationsSpec location_str := by
  unfold split_locations splitLocationsSpec
  by_cases h : location_str = ""
  · subst h
    decide
  · by_cases hc : strContains location_str "|" <;> simp [h, hc]

/-!  ### Shared lemmas for the ledger theorems. -/

theorem decide_eq_symm {α : Type} [DecidableEq α] (a b : α) :
    decide (a = b) = decide (b = a) := by
  by_cases h : a = b
  · simp [h]
  · have h2 : ¬ b = a := fun hh => h hh.symm
    simp [h, h2]

theorem alGet_alSet {α : Type} (d : List (String × α)) (k : String) (v : α)
    (u : String) :
    alGet (alSet d k v) u = if u = k then some v else alGet d u := by
  induction d with
  | nil =>
    by_cases h : u = k
    · subst h
      simp [alSet, alGet, List.find?]
    · have h' : ¬ k = u := fun hh => h hh.symm
      simp [alSet, alGet, List.find?, h, h']
  | cons e rest ih =>
    simp only [alSet]
    by_cases hek : e.1 = k
    · simp only [if_pos hek]
      by_cases h : u = k
      · subst h
        simp [alGet, List.find?]
      · have h' : ¬ k = u := fun hh => h hh.symm
        have he'u : ¬ e.1 = u := by
          rw [hek]
          exact h'
        simp [alGet, List.find?, h, h', he'u]
    · simp only [if_neg hek]
      by_cases heu : e.1 = u
      · have h : ¬ u = k := fun hh => hek (by rw [heu, hh])
        simp [alGet, List.find?, heu, h]
      · have ih2 := ih
        simp only [alGet] at ih2
        simp [alGet, List.find?, heu, ih2]

theorem urlInDict_alSet (d : List (String × CsvRow)) (k : String) (v : CsvRow)
    (u : String) :
    urlInDict (alSet d k v) u = (decide (u = k) || urlInDict d u) := by
  induction d with
  | nil => simp [alSet, urlInDict, decide_eq_symm]
  | cons e rest ih =>
    by_cases hek : e.1 = k
    · simp [alSet, urlInDict, hek, decide_eq_symm k u]
    · have ih2 := ih
      simp only [urlInDict] at ih2
      simp [alSet, urlInDict, hek, ih2, Bool.or_left_comm]

theorem urlInDict_upsertRows (keep : CsvRow → Bool) (tr : CsvRow → CsvRow)
    (rows : List CsvRow) (init : List (String × CsvRow)) (u : String) :
    urlInDict (upsertRows keep tr rows init) u =
      (urlInDict init u ||
        rows.any fun r => keep r && decide (pyStrip (rowGet r "url") = u)) := by
  induction rows generalizing init with
  | nil => simp [upsertRows]
  | cons r rest ih =>
    simp only [upsertRows, List.foldl_cons] at *
    rw [ih]
    by_cases hk : keep r
    · simp [hk, urlInDict_alSet, decide_eq_symm u, Bool.or_assoc,
            Bool.or_left_comm, List.any_cons]
    · simp [hk, List.any_cons]

theorem mem_csvUrls (rows : List CsvRow) (u : String) :
    u ∈ csvUrls rows ↔ (u ≠ "" ∧ ∃ r ∈ rows, pyStrip (rowGet r "url") = u) := by
  simp only [csvUrls, List.mem_filter, List.mem_map, decide_eq_true_eq]
  constructor
  · rintro ⟨⟨r, hr, rfl⟩, hne⟩
    exact ⟨hne, r, hr, rfl⟩
  · rintro ⟨hne, r, hr, hru⟩
    exact ⟨⟨r, hr, hru⟩, hne⟩

theorem contains_strList (l : List String) (u : String) :
    l.contains u = true ↔ u ∈ l :=
  List.elem_iff

theorem urlInDict_upsert_iff (keep : CsvRow → Bool) (tr : CsvRow → CsvRow)
    (rows : List CsvRow) (init : List (String × CsvRow)) (u : String) :
    urlInDict (upsertRows keep tr rows init) u = true ↔
      (urlInDict init u = true ∨
        ∃ r ∈ rows, keep r = true ∧ pyStrip (rowGet r "url") = u) := by
  rw [urlInDict_upsertRows]
  simp [List.any_eq_true]

theorem mem_find_removed (currentRows previousRows : List CsvRow) (r : CsvRow) :
    r ∈ find_removed_jobs currentRows previousRows ↔
      (r ∈ previousRows ∧ pyStrip (rowGet r "url") ≠ "" ∧
        ¬ (csvUrls currentRows).contains (pyStrip (rowGet r "url")) = true) := by
  simp [find_removed_jobs, List.mem_filter]

theorem mem_find_new (currentRows previousRows : List CsvRow) (r : CsvRow) :
    r ∈ find_new_jobs currentRows previousRows ↔
      (r ∈ currentRows ∧ pyStrip (rowGet r "url") ≠ "" ∧
        ¬ (csvUrls previousRows).contains (pyStrip (rowGet r "url")) = true) := by
  simp [find_new_jobs, List.mem_filter]

/-- C2: removed-ledger membership after a run that found a previous dated
snapshot.  A url keys the written `rm_ai.csv` dict iff it is absent from
the current snapshot and was either in the previous snapshot or in the
prior removed ledger; and the file is deleted exactly when that set is
empty.  (Rows are written from the dict values; the dict key is the
stripped url of the row.) -/
theorem removed_ledger_membership (currentRows previousRows : List CsvRow)
    (priorRm : Option (List CsvRow)) (u : String) :
    (urlInDict (updateRemovedLedger (csvUrls currentRows) (priorRm.getD [])
        (find_removed_jobs currentRows previousRows)) u = true ↔
      (u ∉ csvUrls currentRows ∧
        (u ∈ csvUrls previousRows ∨ u ∈ csvUrls (priorRm.getD [])))) ∧
    (rmLedgerAfterRun currentRows previousRows priorRm = none ↔
      ∀ v, urlInDict (updateRemovedLedger (csvUrls currentRows) (priorRm.getD [])
        (find_removed_jobs currentRows previousRows)) v = false) := by
  constructor
  · simp only [updateRemovedLedger, urlInDict_upsert_iff]
    constructor
    · rintro ((h | ⟨r, hr, hkeep, hru⟩) | ⟨r, hr, hkeep, hru⟩)
      · simp [urlInDict] at h
      · simp only [Bool.and_eq_true, Bool.not_eq_true', beq_eq_false_iff_ne,
          Bool.not_eq_true] at hkeep
        refine ⟨?_, Or.inr ((mem_csvUrls _ _).mpr ⟨hru ▸ hkeep.1, r, hr, hru⟩)⟩
        intro hmem
        have := (contains_strList (csvUrls currentRows) u).mpr hmem
        rw [← hru] at this
        rw [this] at hkeep
        exact absurd hkeep.2 (by simp)
      · rcases (mem_find_removed _ _ _).mp hr with ⟨hprev, hne, hnc⟩
        refine ⟨?_, Or.inl ((mem_csvUrls _ _).mpr ⟨hru ▸ hne, r, hprev, hru⟩)⟩
        intro hmem
        exact hnc (hru ▸ (contains_strList _ _).mpr hmem)
    · rintro ⟨hncur, hprev | hrm⟩
      · rcases (mem_csvUrls _ _).mp hprev with ⟨hne, r, hr, hru⟩
        refine Or.inr ⟨r, (mem_find_removed _ _ _).mpr
          ⟨hr, hru ▸ hne, fun hc => hncur ((contains_strList _ _).mp (hru ▸ hc))⟩,
          ?_, hru⟩
        simp [hru ▸ hne]
      · rcases (mem_csvUrls _ _).mp hrm with ⟨hne, r, hr, hru⟩
        refine Or.inl (Or.inr ⟨r, hr, ?_, hru⟩)
        have hnc : (csvUrls currentRows).contains (pyStrip (rowGet r "url")) = false := by
          rw [hru]
          by_cases hc : (csvUrls currentRows).contains u = true
          · exact absurd ((contains_strList _ _).mp hc) hncur
          · simpa using hc
        simp only [Bool.and_eq_true, Bool.not_eq_true', beq_eq_false_iff_ne, hnc,
          Bool.not_false, and_true]
        exact hru ▸ hne
  · unfold rmLedgerAfterRun
    constructor
    · intro h v
      by_cases hd : updateRemovedLedger (csvUrls currentRows) (priorRm.getD [])
          (find_removed_jobs currentRows previousRows) = []
      · simp [hd, urlInDict]
      · simp [hd] at h
    · intro h
      by_cases hd : updateRemovedLedger (csvUrls currentRows) (priorRm.getD [])
          (find_removed_jobs currentRows previousRows) = []
      · simp [hd]
      · rcases List.exists_mem_of_ne_nil _ hd with ⟨e, he⟩
        have : urlInDict (updateRemovedLedger (csvUrls currentRows) (priorRm.getD [])
            (find_removed_jobs currentRows previousRows)) e.1 = true := by
          unfold urlInDict
          rw [List.any_eq_true]
          exact ⟨e, he, by simp⟩
        rw [h e.1] at this
        exact absurd this (by simp)

/-- C1 (amended): new-ledger membership after a run that found a previous
dated snapshot.  A url keys the written `new_ai.csv` dict iff it is in the
current snapshot and either was already in the prior new ledger or is
absent from the previous snapshot — carried-over ledger rows may well be
in the previous snapshot, which is what falsifies the claim as stated. -/
theorem new_ledger_membership (currentRows previousRows : List CsvRow)
    (priorNew : Option (List CsvRow)) (today_str : String) (u : String) :
    urlInDict (updateNewLedger (csvUrls currentRows) (priorNew.getD [])
        (find_new_jobs currentRows previousRows) today_str) u = true ↔
      (u ∈ csvUrls currentRows ∧
        (u ∈ csvUrls (priorNew.getD []) ∨ u ∉ csvUrls previousRows)) := by
  simp only [updateNewLedger, urlInDict_upsert_iff]
  constructor
  · rintro ((h | ⟨r, hr, hkeep, hru⟩) | ⟨r, hr, hkeep, hru⟩)
    · simp [urlInDict] at h
    · simp only [Bool.and_eq_true, Bool.not_eq_true', beq_eq_false_iff_ne] at hkeep
      exact ⟨(contains_strList _ _).mp (hru ▸ hkeep.2),
        Or.inl ((mem_csvUrls _ _).mpr ⟨hru ▸ hkeep.1, r, hr, hru⟩)⟩
    · rcases (mem_find_new _ _ _).mp hr with ⟨hcur, hne, hnc⟩
      refine ⟨(mem_csvUrls _ _).mpr ⟨hru ▸ hne, r, hcur, hru⟩, Or.inr ?_⟩
      intro hmem
      exact hnc (hru ▸ (contains_strList _ _).mpr hmem)
  · rintro ⟨hcur, hnew | hnprev⟩
    · rcases (mem_csvUrls _ _).mp hnew with ⟨hne, r, hr, hru⟩
      refine Or.inl (Or.inr ⟨r, hr, ?_, hru⟩)
      have hc : (csvUrls currentRows).contains (pyStrip (rowGet r "url")) = true := by
        rw [hru]
        exact (contains_strList _ _).mpr hcur
      simp only [Bool.and_eq_true, Bool.not_eq_true', beq_eq_false_iff_ne, hc,
        and_true]
      exact hru ▸ hne
    · rcases (mem_csvUrls _ _).mp hcur with ⟨hne, r, hr, hru⟩
      refine Or.inr ⟨r, (mem_find_new _ _ _).mpr
        ⟨hr, hru ▸ hne, fun hc => hnprev ((contains_strList _ _).mp (hru ▸ hc))⟩,
        ?_, hru⟩
      simp [hru ▸ hne]

/-- C1 (counterexample): with a url `u` present in the current snapshot,
the previous snapshot, and the prior new ledger, the run keeps `u` in
`new_ai.csv` (it is still current), yet the claimed membership condition
`u ∈ current ∧ u ∉ previous ∧ (u ∉ prior_new ∨ u ∈ current)` is false, and
the claimed consequence "the new ledger contains only URLs absent from the
immediately-prior snapshot" fails too. -/
theorem new_ledger_claim_counterexample :
    urlInDict (updateNewLedger (csvUrls [c1row]) [c1row]
        (find_new_jobs [c1row] [c1row]) "03-01-2025-12-00") "https://j/1" = true ∧
    ¬ ("https://j/1" ∈ csvUrls [c1row] ∧ "https://j/1" ∉ csvUrls [c1row] ∧
        ("https://j/1" ∉ csvUrls [c1row] ∨ "https://j/1" ∈ csvUrls [c1row])) ∧
    "https://j/1" ∈ csvUrls [c1row] := by
  refine ⟨by decide, ?_, by decide⟩
  rintro ⟨h1, h2, _⟩
  exact h2 h1

/-!  ### Date-preservation lemmas (C3). -/

theorem alGet_canonFold (rows : List CsvRow) (d : List (String × String))
    (u : String) (hu : u ≠ "") :
    alGet (List.foldl canonDateStep d rows) u =
      orOpt (lastDateIn rows u) (alGet d u) := by
  induction rows generalizing d with
  | nil => simp [lastDateIn, orOpt]
  | cons r rest ih =>
    simp only [List.foldl_cons, lastDateIn]
    rw [ih]
    by_cases hq : pyStrip (rowGet r "url") ≠ "" ∧ pyStrip (rowGet r "date") ≠ ""
    · rw [show canonDateStep d r =
          alSet d (pyStrip (rowGet r "url")) (pyStrip (rowGet r "date")) by
        simp [canonDateStep, hq]]
      cases hrest : lastDateIn rest u with
      | some x => simp [orOpt]
      | none =>
        simp only [orOpt]
        rw [alGet_alSet]
        by_cases hru : pyStrip (rowGet r "url") = u
        · simp [hru, hq.2]
        · have : ¬ u = pyStrip (rowGet r "url") := fun hh => hru hh.symm
          simp [hru, this, orOpt]
    · rw [show canonDateStep d r = d by
        simp only [canonDateStep]
        rw [if_neg hq]]
      cases hrest : lastDateIn rest u with
      | some x => simp [orOpt]
      | none =>
        have hcond : ¬ (pyStrip (rowGet r "url") = u ∧ pyStrip (rowGet r "date") ≠ "") := by
          rintro ⟨h1, h2⟩
          exact hq ⟨h1 ▸ hu, h2⟩
        simp [orOpt, hcond]

theorem alGet_prevFold (rows : List CsvRow) (d : List (String × String))
    (u : String) (hu : u ≠ "") :
    alGet (List.foldl prevDateStep d rows) u =
      orOpt (alGet d u) (firstDateIn rows u) := by
  induction rows generalizing d with
  | nil => cases h : alGet d u <;> simp [firstDateIn, orOpt, h]
  | cons r rest ih =>
    simp only [List.foldl_cons, firstDateIn]
    rw [ih]
    by_cases hq : pyStrip (rowGet r "url") ≠ "" ∧ pyStrip (rowGet r "date") ≠ "" ∧
        (alGet d (pyStrip (rowGet r "url"))).isNone
    · rw [show prevDateStep d r =
          alSet d (pyStrip (rowGet r "url")) (pyStrip (rowGet r "date")) by
        simp [prevDateStep, hq]]
      rw [alGet_alSet]
      by_cases hru : pyStrip (rowGet r "url") = u
      · have hnone : alGet d u = none := by
          have := hq.2.2
          rwa [hru, Option.isNone_iff_eq_none] at this
        simp [hru, hq.2.1, hnone, orOpt]
      · have : ¬ u = pyStrip (rowGet r "url") := fun hh => hru hh.symm
        simp [hru, this]
    · rw [show prevDateStep d r = d by
        simp only [prevDateStep]
        rw [if_neg hq]]
      by_cases hcond : pyStrip (rowGet r "url") = u ∧ pyStrip (rowGet r "date") ≠ ""
      · have hsome : ∃ x, alGet d u = some x := by
          rcases hcond with ⟨h1, h2⟩
          by_cases hn : (alGet d (pyStrip (rowGet r "url"))).isNone
          · exact absurd ⟨h1 ▸ hu, h2, hn⟩ hq
          · rw [h1] at hn
            cases h : alGet d u
            · rw [h] at hn
              simp at hn
            · exact ⟨_, rfl⟩
        rcases hsome with ⟨x, hx⟩
        simp [hcond, hx, orOpt]
      · simp [hcond]

theorem buildExistingDates_eq (canonical : Option (List CsvRow))
    (files : List SnapshotFile) (todayName : String) :
    buildExistingDates canonical files todayName =
      addDatesFromPrevious (existingDatesFromCanonical canonical)
        (chosenSnapshotRows files todayName) := by
  unfold buildExistingDates chosenSnapshotRows
  cases find_most_recent_ai_csv files false todayName <;>
    simp [addDatesFromPrevious, List.foldl_nil]

/-- C3 (amended): the emitted `date` column.  For each job: an empty url
gets the fresh timestamp; otherwise the stored date wins with the
pre-existing canonical snapshot taking precedence (last occurrence wins
there) over the single most recent dated snapshot chosen by
`find_most_recent_ai_csv(exclude_today=False)` (first occurrence wins
there, and the file of today itself is eligible); a url neither file dates gets
the fresh timestamp.  Older dated snapshots are never consulted. -/
theorem date_preservation (canonical : Option (List CsvRow))
    (files : List SnapshotFile) (todayName now : String) (jobs : List CsvRow) :
    (setJobDates (buildExistingDates canonical files todayName) now jobs).map
        (fun r => rowGet r "date") =
      jobs.map (fun job =>
        let u := pyStrip (rowGet job "url")
        if u = "" then now
        else
          match orOpt (lastDateIn (canonical.getD []) u)
              (firstDateIn (chosenSnapshotRows files todayName) u) with
          | some d => d
          | none => now) := by
  unfold setJobDates
  rw [List.map_map]
  apply List.map_congr_left
  intro job _
  simp only [Function.comp]
  have hget : ∀ x : String, rowGet (alSet job "date" x) "date" = x := by
    intro x
    unfold rowGet
    rw [alGet_alSet]
    simp
  by_cases hu : pyStrip (rowGet job "url") = ""
  · simp [hu, hget]
  · have hlook : alGet (buildExistingDates canonical files todayName)
        (pyStrip (rowGet job "url")) =
        orOpt (lastDateIn (canonical.getD []) (pyStrip (rowGet job "url")))
          (firstDateIn (chosenSnapshotRows files todayName)
            (pyStrip (rowGet job "url"))) := by
      rw [buildExistingDates_eq]
      unfold addDatesFromPrevious existingDatesFromCanonical
      rw [alGet_prevFold _ _ _ hu, alGet_canonFold _ _ _ hu]
      simp [alGet, orOpt]
      cases lastDateIn (canonical.getD []) (pyStrip (rowGet job "url")) <;>
        simp [orOpt]
    simp only [hu, if_neg hu, ite_false]
    rw [hlook]
    cases orOpt (lastDateIn (canonical.getD []) (pyStrip (rowGet job "url")))
        (firstDateIn (chosenSnapshotRows files todayName)
          (pyStrip (rowGet job "url"))) <;>
      simp [hget, hu]

/-- C3 (counterexample): a url dated only by an *older* dated snapshot.
The run picks the most recent snapshot by mtime, the url is not in it nor
in a canonical file, so its date is reset to the fresh timestamp rather
than the stored `2025-01-01T00:00:00Z` — the phrase of the claim "appears ... in any
prior dated snapshot ⇒ reuse that stored date" fails, as does "set exactly
once and preserved by subsequent runs". -/
theorem date_preservation_counterexample :
    firstDateIn c3old.rows "https://j/1" = some "2025-01-01T00:00:00Z" ∧
    (setJobDates (buildExistingDates none [c3old, c3new] "ai-03-01-2025.csv")
        "2025-01-03T12:00:00Z" c3jobs).map (fun r => rowGet r "date") =
      ["2025-01-03T12:00:00Z"] ∧
    ("2025-01-03T12:00:00Z" : String) ≠ "2025-01-01T00:00:00Z" := by
  refine ⟨by decide, by decide, by decide⟩

/-!  ### Timestamp-format lemmas (C4). -/

theorem replaceAllAux_nil (fuel : Nat) (pat rep : List Char) :
    replaceAllAux fuel pat rep [] = [] := by
  cases fuel <;> simp [replaceAllAux]

theorem isPrefixOf_self (l : List Char) : l.isPrefixOf l = true := by
  induction l with
  | nil => rfl
  | cons c rest ih => simp [List.isPrefixOf, ih]

theorem replaceAllAux_skip_to_pat (p : Char) (ps rep : List Char) (l : List Char)
    (hl : ∀ c ∈ l, c ≠ p) :
    ∀ fuel, l.length < fuel →
      replaceAllAux fuel (p :: ps) rep (l ++ p :: ps) = l ++ rep := by
  induction l with
  | nil =>
    intro fuel hf
    cases fuel with
    | zero => omega
    | succ f =>
      simp only [List.nil_append, replaceAllAux]
      rw [if_pos ⟨isPrefixOf_self _, by simp⟩]
      rw [List.drop_length, replaceAllAux_nil]
      simp
  | cons c l ih =>
    intro fuel hf
    cases fuel with
    | zero => omega
    | succ f =>
      simp only [List.cons_append, replaceAllAux]
      have hc : c ≠ p := hl c (List.mem_cons_self c l)
      have hpre : (p :: ps).isPrefixOf (c :: (l ++ p :: ps)) = false := by
        simp [List.isPrefixOf]
        intro hh
        exact absurd hh.symm hc
      rw [if_neg (by rw [hpre]; rintro ⟨h1, _⟩; exact absurd h1 (by simp))]
      rw [ih (fun x hx => hl x (List.mem_cons_of_mem c hx)) f (by simpa using Nat.lt_of_succ_lt_succ hf)]

theorem digitChar_mod_isDigit (n : Nat) : (Nat.digitChar (n % 10)).isDigit = true := by
  have h : n % 10 < 10 := Nat.mod_lt _ (by norm_num)
  revert h
  generalize n % 10 = k
  revert k
  decide

theorem digitChar_mod_ne_plus (n : Nat) : Nat.digitChar (n % 10) ≠ '+' := by
  have h : n % 10 < 10 := Nat.mod_lt _ (by norm_num)
  revert h
  generalize n % 10 = k
  revert k
  decide

/-- C4 (amended): every timestamp `normalize_datetime_to_utc_iso` produces
matches `^\d{4}-\d{2}-\d{2}T\d{2}:\d{2}:\d{2}Z$` — covering `posted_at` of
every adapter that derives it through `posted_at_from_source`, and every
freshly assigned `date`.  The hypothesis is an invariant of the Python runtime: the
UTC conversion stayed inside the `datetime` field ranges (Python raises
`OverflowError` otherwise). -/
theorem timestamp_format (dt : PyDatetime)
    (_valid : isValidPyDatetime (toUTC dt) = true) :
    ∃ s, normalize_datetime_to_utc_iso (some dt) = some s ∧
      matchesTimestampRegex s = true := by
  refine ⟨_, rfl, ?_⟩
  unfold replaceAll isoformatUTC
  have hdata :
      (four0 (toUTC dt).year ++ '-' :: two0 (toUTC dt).month ++ '-' ::
        two0 (toUTC dt).day ++ 'T' :: two0 (toUTC dt).hour ++ ':' ::
        two0 (toUTC dt).minute ++ ':' :: two0 (toUTC dt).second ++
        "+00:00".data) =
      ((four0 (toUTC dt).year ++ '-' :: two0 (toUTC dt).month ++ '-' ::
        two0 (toUTC dt).day ++ 'T' :: two0 (toUTC dt).hour ++ ':' ::
        two0 (toUTC dt).minute ++ ':' :: two0 (toUTC dt).second) ++
        ('+' :: "00:00".data)) := by
    simp [four0, two0]
  rw [show ({ toUTC dt with microsecond := 0 } : PyDatetime).year = (toUTC dt).year from rfl,
      show ({ toUTC dt with microsecond := 0 } : PyDatetime).month = (toUTC dt).month from rfl,
      show ({ toUTC dt with microsecond := 0 } : PyDatetime).day = (toUTC dt).day from rfl,
      show ({ toUTC dt with microsecond := 0 } : PyDatetime).hour = (toUTC dt).hour from rfl,
      show ({ toUTC dt with microsecond := 0 } : PyDatetime).minute = (toUTC dt).minute from rfl,
      show ({ toUTC dt with microsecond := 0 } : PyDatetime).second = (toUTC dt).second from rfl]
  rw [show ("+00:00" : String).data = '+' :: "00:00".data from rfl]
  rw [hdata]
  rw [replaceAllAux_skip_to_pat '+' "00:00".data "Z".data _
      (by
        intro c hc
        simp only [four0, two0, List.cons_append, List.nil_append,
          List.mem_cons, List.not_mem_nil, or_false] at hc
        rcases hc with rfl | rfl | rfl | rfl | rfl | rfl | rfl | rfl | rfl |
          rfl | rfl | rfl | rfl | rfl | rfl | rfl | rfl | rfl | rfl <;>
          first
            | exact digitChar_mod_ne_plus _
            | decide)
      _ (by
        simp only [four0, two0, List.length_append, List.length_cons,
          List.length_nil]
        omega)]
  simp [matchesTimestampRegex, four0, two0, digitChar_mod_isDigit]

/-- C4 (witness): a concrete aware datetime (UTC+2 with microseconds)
whose normalization is well-defined, instantiating `timestamp_format`. -/
theorem timestamp_format_witness :
    isValidPyDatetime (toUTC c4dt) = true ∧
      ∃ s, normalize_datetime_to_utc_iso (some c4dt) = some s ∧
        matchesTimestampRegex s = true :=
  ⟨by decide, timestamp_format c4dt (by decide)⟩

/-- C4 (counterexample): the Meta adapter copies the raw `updated_time`
JSON field into `posted_at` without normalization.  An epoch-seconds
string is emitted verbatim and does not match the required shape, so
"the posted_at of every adapter matches the regex whenever present" is false
as stated. -/
theorem timestamp_claim_counterexample :
    (extract_meta_rows c4meta "Meta").map Row.posted_at = [some "1710079920"] ∧
    matchesTimestampRegex "1710079920" = false := by
  exact ⟨by decide, by decide⟩

/-!  ### Multi-location expansion (C5). -/

/-- C5 (amended): a posting whose (company-normalized) location splits into
N fragments yields exactly N rows, in source order; every field except
`location`, `lat` and `lon` is identical across the N rows, while
`location` is the i-th fragment and `lat`/`lon` are the atlas lookup of
that fragment (so they generally differ between rows). -/
theorem ashby_multi_location (job : AshbyJobCtx) (company : String)
    (locs : List String)
    (h : split_locations
        (normalize_location_by_company (job.location.getD "") company) = locs) :
    (extract_ashby_rows job company).length = locs.length ∧
    (∀ i (hi : i < (extract_ashby_rows job company).length)
        (hl : i < locs.length),
      ((extract_ashby_rows job company).get ⟨i, hi⟩).location =
          locs.get ⟨i, hl⟩ ∧
        ((extract_ashby_rows job company).get ⟨i, hi⟩).lat =
          (get_coordinates (locs.get ⟨i, hl⟩)).1 ∧
        ((extract_ashby_rows job company).get ⟨i, hi⟩).lon =
          (get_coordinates (locs.get ⟨i, hl⟩)).2) ∧
    (∀ i j (hi : i < (extract_ashby_rows job company).length)
        (hj : j < (extract_ashby_rows job company).length),
      ((extract_ashby_rows job company).get ⟨i, hi⟩).url =
          ((extract_ashby_rows job company).get ⟨j, hj⟩).url ∧
        ((extract_ashby_rows job company).get ⟨i, hi⟩).title =
          ((extract_ashby_rows job company).get ⟨j, hj⟩).title ∧
        ((extract_ashby_rows job company).get ⟨i, hi⟩).company =
          ((extract_ashby_rows job company).get ⟨j, hj⟩).company ∧
        ((extract_ashby_rows job company).get ⟨i, hi⟩).ats_id =
          ((extract_ashby_rows job company).get ⟨j, hj⟩).ats_id ∧
        ((extract_ashby_rows job company).get ⟨i, hi⟩).ats_type =
          ((extract_ashby_rows job company).get ⟨j, hj⟩).ats_type ∧
        ((extract_ashby_rows job company).get ⟨i, hi⟩).salary_currency =
          ((extract_ashby_rows job company).get ⟨j, hj⟩).salary_currency ∧
        ((extract_ashby_rows job company).get ⟨i, hi⟩).salary_period =
          ((extract_ashby_rows job company).get ⟨j, hj⟩).salary_period ∧
        ((extract_ashby_rows job company).get ⟨i, hi⟩).salary_summary =
          ((extract_ashby_rows job company).get ⟨j, hj⟩).salary_summary ∧
        ((extract_ashby_rows job company).get ⟨i, hi⟩).experience =
          ((extract_ashby_rows job company).get ⟨j, hj⟩).experience ∧
        ((extract_ashby_rows job company).get ⟨i, hi⟩).posted_at =
          ((extract_ashby_rows job company).get ⟨j, hj⟩).posted_at) := by
  have hrows : extract_ashby_rows job company =
      locs.map fun loc =>
        { url := pyOr (job.job_url.getD "") (pyOr (job.apply_url.getD "") ""),
          title := pyStrip (job.title.getD ""), location := loc,
          company := company, ats_id := job.id, ats_type := "ashby",
          salary_currency := job.compSalaryCurrency,
          salary_period := job.compSalaryPeriod,
          salary_summary := job.compSalarySummary, experience := none,
          lat := (get_coordinates loc).1, lon := (get_coordinates loc).2,
          posted_at :=
            if pyOr (job.job_url.getD "") (pyOr (job.apply_url.getD "") "") ≠ ""
            then job.rawPostedAt else none } := by
    simp only [extract_ashby_rows]
    rw [h]
  rw [hrows]
  refine ⟨by simp, ?_, ?_⟩
  · intro i hi hl
    simp [List.get_map]
  · intro i j hi hj
    simp [List.get_map]

/-- C5 (witness): a posting with location `"A | B | C"` (three non-empty
fragments) instantiating `ashby_multi_location`: three rows are emitted. -/
theorem ashby_multi_location_witness :
    split_locations (normalize_location_by_company
        ((some "A | B | C" : Option String).getD "") "Acme") = ["A", "B", "C"] ∧
    (extract_ashby_rows
        ⟨"a-1", some "T", some "A | B | C", some "u", none, none, none, none,
         none⟩ "Acme").length = (["A", "B", "C"] : List String).length :=
  ⟨by decide,
    (ashby_multi_location
      ⟨"a-1", some "T", some "A | B | C", some "u", none, none, none, none,
       none⟩ "Acme" ["A", "B", "C"] (by decide)).1⟩

/-- C5 (counterexample): two pipe-separated city fragments produce rows
whose `lat`/`lon` differ (San Francisco vs New York), so "all fields other
than location — including lat, lon — are identical across the N rows" is
false as stated. -/
theorem ashby_multi_location_counterexample :
    (extract_ashby_rows c5job "Acme").map Row.location =
        ["San Francisco", "New York"] ∧
    (extract_ashby_rows c5job "Acme").map Row.lat =
        [some (ce 377749 4), some (ce 407128 4)] ∧
    (ce 377749 4 : Coord) ≠ ce 407128 4 ∧
    (ce 377749 4).toRat ≠ (ce 407128 4).toRat := by
  refine ⟨by decide, by decide, by decide, ?_⟩
  simp only [Coord.toRat, ce]
  norm_num

/-!  ### Enrichment scenario (C6). -/

set_option maxRecDepth 100000 in
set_option maxHeartbeats 2000000 in
/-- C6 (amended): enriching a job without `salary_summary` whose retrieved
description is the scenario text sets `salary_summary` to the raw
extracted range string `"$150,000-$180,000"` (the extractor preserves the
comma formatting of the match; no `"$123K"`-style reformatting happens on
this path), sets `salary_currency = "USD"` via `parse_salary`, and sets
`experience = "5"`. -/
theorem enrichment_scenario :
    (enrich_jobs_with_description_data c6getDesc [c6job]).map
        (fun j => (alGet j "salary_summary", alGet j "salary_currency",
          alGet j "experience")) =
      [(some (JVal.str "$150,000-$180,000"), some (JVal.str "USD"),
        some (JVal.str "5"))] := by
  decide

set_option maxRecDepth 100000 in
set_option maxHeartbeats 2000000 in
/-- C6 (counterexample): the value stored is the raw `"$150,000-$180,000"`,
not the `"$150K - $180K"` the claim states (that format exists only in the
separate `extract_salary_experience.py` CLI pass, not in this pipeline). -/
theorem enrichment_scenario_counterexample :
    (enrich_jobs_with_description_data c6getDesc [c6job]).map
        (fun j => alGet j "salary_summary") =
      [some (JVal.str "$150,000-$180,000")] ∧
    (JVal.str "$150,000-$180,000" : JVal) ≠ JVal.str "$150K - $180K" := by
  exact ⟨by decide, by decide⟩

/-!  ### Salary false-positive and bounds filter (C8). -/

/-- Unfolding lemma for one step of the pattern loop. -/
theorem extractSalaryAux_cons (desc : List Char) (p : RE) (rest : List RE) :
    extractSalaryAux desc (p :: rest) =
      match reSearchL true p desc with
      | none => extractSalaryAux desc rest
      | some m =>
        match salaryMatchResult desc p m with
        | some r => some r
        | none => extractSalaryAux desc rest := rfl

set_option maxRecDepth 100000 in
set_option maxHeartbeats 2000000 in
/-- C8: the per-match filter of `extract_salary_from_description`.
(1) A pattern whose found match is rejected contributes nothing — the loop
moves on to the remaining patterns.  (2) A match whose ±100-char lowered
context fires a revenue/funding indicator is rejected.  (3) A two-group
match whose k-normalized bounds violate `min < 20000 ∨ max > 1000000 ∨
min > max` is rejected.  (4) A one-group match below the floor or above
the ceiling is rejected.  (5) In particular, a description whose only
monetary amount is `$19,999` yields no salary. -/
theorem salary_filter_rejection :
    (∀ (desc : List Char) (p : RE) (rest : List RE) (m : SearchRes),
        reSearchL true p desc = some m → salaryMatchResult desc p m = none →
        extractSalaryAux desc (p :: rest) = extractSalaryAux desc rest) ∧
    (∀ (desc : List Char) (p : RE) (m : SearchRes),
        isFalsePositive (fpContextLower desc m) = true →
        salaryMatchResult desc p m = none) ∧
    (∀ (desc : List Char) (p : RE) (m : SearchRes) (minq maxq : Dec),
        reGroupCount p = 2 →
        parseDec (stripChars (capGroup desc m 1) ',').data = some minq →
        parseDec (stripChars (capGroup desc m 2) ',').data = some maxq →
        rangeRejected (kMult (capWhole desc m) minq)
          (kMult (capWhole desc m) maxq) = true →
        salaryMatchResult desc p m = none) ∧
    (∀ (desc : List Char) (p : RE) (m : SearchRes) (v : Dec),
        reGroupCount p = 1 →
        parseDec (stripChars (stripChars (capGroup desc m 1) ',') '.').data =
          some v →
        singleRejected (kMult (capWhole desc m) v) = true →
        salaryMatchResult desc p m = none) ∧
    extract_salary_from_description c8desc = (none, none) := by
  refine ⟨?_, ?_, ?_, ?_, by decide⟩
  · intro desc p rest m h1 h2
    rw [extractSalaryAux_cons, h1]
    show (match salaryMatchResult desc p m with
          | some r => some r
          | none => extractSalaryAux desc rest) = extractSalaryAux desc rest
    rw [h2]
  · intro desc p m h
    unfold salaryMatchResult
    rw [if_pos h]
  · intro desc p m minq maxq hg h1 h2 h3
    by_cases hfp : isFalsePositive (fpContextLower desc m) = true
    · unfold salaryMatchResult
      rw [if_pos hfp]
    · unfold salaryMatchResult
      rw [if_neg hfp, hg, if_pos rfl]
      unfold salaryRangeResult
      rw [h1, h2]
      show salaryRangeFormat desc m minq maxq = none
      simp only [salaryRangeFormat]
      rw [if_pos h3]
  · intro desc p m v hg h1 h2
    by_cases hfp : isFalsePositive (fpContextLower desc m) = true
    · unfold salaryMatchResult
      rw [if_pos hfp]
    · unfold salaryMatchResult
      rw [if_neg hfp, hg, if_neg (by decide : ¬ (1 = 2)), if_pos rfl]
      unfold salarySingleResult
      rw [h1]
      show salarySingleFormat desc m v = none
      simp only [salarySingleFormat]
      rw [if_pos h2]

set_option maxRecDepth 100000 in
set_option maxHeartbeats 2000000 in
/-- C8 (witness): the `$19,999` description.  Pattern 9 finds the match at
offsets 11-27 with group `"19,999"`; the bounds filter rejects it
(`19999 < 20000`), so the loop falls through to the (empty) remaining
pattern list, instantiating part (1) of `salary_filter_rejection`. -/
theorem salary_filter_rejection_witness :
    reSearchL true salaryPat9 c8desc.data = some ⟨11, 27, [(1, 12, 18)]⟩ ∧
    salaryMatchResult c8desc.data salaryPat9 ⟨11, 27, [(1, 12, 18)]⟩ = none ∧
    extractSalaryAux c8desc.data (salaryPat9 :: []) =
      extractSalaryAux c8desc.data [] :=
  ⟨by decide, by decide,
    salary_filter_rejection.1 c8desc.data salaryPat9 [] ⟨11, 27, [(1, 12, 18)]⟩
      (by decide) (by decide)⟩

/-!  ### Frame property of the enrichment pass (C9). -/

set_option maxRecDepth 100000 in
set_option maxHeartbeats 2000000 in
/-- C9: frame property of `enrich_jobs_with_description_data`: the pass maps
`enrichStep` over the list, so no job is reordered, inserted or deleted;
per job, every key other than `salary_summary`, `salary_currency` and
`experience` keeps its value; a job whose `salary_summary` is already
truthy keeps that value unchanged; and a job whose stripped url, company
or title is empty is returned entirely unchanged (its `experience` is not
even initialized). -/
theorem enrichment_frame :
    (∀ (getDesc : String → String → String → String → String → Option String)
        (jobs : List JobDict),
        enrich_jobs_with_description_data getDesc jobs =
          jobs.map (enrichStep getDesc)) ∧
    (∀ (getDesc : String → String → String → String → String → Option String)
        (job : JobDict) (k : String),
        k ≠ "salary_summary" → k ≠ "salary_currency" → k ≠ "experience" →
        alGet (enrichStep getDesc job) k = alGet job k) ∧
    (∀ (getDesc : String → String → String → String → String → Option String)
        (job : JobDict),
        jTruthy (alGet job "salary_summary") = true →
        alGet (enrichStep getDesc job) "salary_summary" =
          alGet job "salary_summary") ∧
    (∀ (getDesc : String → String → String → String → String → Option String)
        (job : JobDict),
        pyStrip (pyStrField job "url") = "" ∨
          pyStrip (pyStrField job "company") = "" ∨
          pyStrip (pyStrField job "title") = "" →
        enrichStep getDesc job = job) := by
  refine ⟨fun _ _ => rfl, ?_, ?_, ?_⟩
  · intro getDesc job k h1 h2 h3
    simp only [enrichStep]
    repeat' split
    all_goals simp [alGet_alSet, h1, h2, h3]
  · intro getDesc job h
    have hne : ¬ ("salary_summary" : String) = "experience" := by decide
    simp only [enrichStep]
    repeat' split
    all_goals simp_all [alGet_alSet]
  · intro getDesc job h
    simp only [enrichStep]
    rw [if_pos h]

/-- C9 (witness): on a job with a truthy `salary_summary` and a description
oracle that finds nothing, `posted_at` and `salary_summary` are untouched,
and a job with an empty url passes through entirely unchanged. -/
theorem enrichment_frame_witness :
    alGet (enrichStep c9getDesc c9job) "posted_at" = alGet c9job "posted_at" ∧
    alGet (enrichStep c9getDesc c9job) "salary_summary" =
      alGet c9job "salary_summary" ∧
    enrichStep c9getDesc c9emptyJob = c9emptyJob :=
  ⟨enrichment_frame.2.1 c9getDesc c9job "posted_at" (by decide) (by decide)
      (by decide),
   enrichment_frame.2.2.1 c9getDesc c9job (by decide),
   enrichment_frame.2.2.2 c9getDesc c9emptyJob (Or.inl (by decide))⟩

/-!  ### Missing-location substitution (C10). -/

set_option maxRecDepth 100000 in
set_option maxHeartbeats 2000000 in
/-- C10: an Apple or Uber raw job with a url and title but neither a
non-empty `locations` array nor a non-empty `location` string yields
exactly one canonical row whose location is the literal `"N/A"` with null
coordinates, while the Meta and Cursor extractors emit an empty-string
location in the same situation. -/
theorem missing_location_defaults :
    (∀ (j : BespokeRawJob) (company : String),
        pyStrip (j.url.getD "") ≠ "" → pyStrip (j.title.getD "") ≠ "" →
        (j.locations = none ∨ j.locations = some []) →
        pyStrip (j.location.getD "") = "" →
        extract_apple_rows j company =
          [{ url := pyStrip (j.url.getD ""),
             title := pyStrip (j.title.getD ""), location := "N/A",
             company := company,
             ats_id := pyStrip (pyOr (j.positionId.getD "")
               (pyOr (j.id.getD "") (pyStrip (j.url.getD "")))),
             ats_type := "apple", salary_currency := none,
             salary_period := none, salary_summary := none,
             experience := none, lat := none, lon := none,
             posted_at := j.parsedPostedAt }] ∧
        extract_uber_rows j company =
          [{ url := pyStrip (j.url.getD ""),
             title := pyStrip (j.title.getD ""), location := "N/A",
             company := company,
             ats_id := pyStrip (pyOr (j.id.getD "") (pyStrip (j.url.getD ""))),
             ats_type := "uber", salary_currency := none,
             salary_period := none, salary_summary := none,
             experience := none, lat := none, lon := none,
             posted_at := j.parsedPostedAt }]) ∧
    (∀ (j : MetaRawJob) (company : String),
        pyStrip (j.url.getD "") ≠ "" → pyStrip (j.title.getD "") ≠ "" →
        (j.locations = none ∨ j.locations = some []) →
        pyStrip (j.location.getD "") = "" →
        (extract_meta_rows j company).map Row.location = [""] ∧
        (extract_cursor_rows j company).map Row.location = [""]) := by
  have hNA : ∀ c : String, normalize_location_by_company "N/A" c = "N/A" := by
    intro c
    simp only [normalize_location_by_company]
    split
    · rfl
    · exact if_neg (fun hc => absurd hc.2 (by decide))
  have hEmpty : ∀ c : String, normalize_location_by_company "" c = "" := by
    intro c
    simp [normalize_location_by_company]
  have hsNA : split_locations "N/A" = ["N/A"] := by decide
  have hsE : split_locations "" = [""] := by decide
  have hg : get_coordinates "N/A" = (none, none) := by decide
  refine ⟨?_, ?_⟩
  · intro j company hu ht hlocs hls
    have hb : bespokeLocationStr j = "N/A" := by
      simp only [bespokeLocationStr]
      rcases hlocs with h | h <;> rw [h] <;> simp [hls]
    constructor
    · simp only [extract_apple_rows]
      rw [if_neg (fun hor => hor.elim hu ht), hb, hNA, hsNA]
      simp [hg]
    · simp only [extract_uber_rows]
      rw [if_neg (fun hor => hor.elim hu ht), hb, hNA, hsNA]
      simp [hg]
  · intro j company hu ht hlocs hls
    have hvals : metaLocationValues j = [""] := by
      have hred : metaLocationValues j =
          (match j.location with
           | some s => [pyStrip s]
           | none => [""]) := by
        rcases hlocs with h | h <;> simp [metaLocationValues, h]
      rw [hred]
      cases hcase : j.location with
      | none => rfl
      | some s =>
        rw [hcase] at hls
        simp only [Option.getD_some] at hls
        simp [hls]
    constructor
    · simp only [extract_meta_rows]
      rw [hvals]
      simp [hEmpty, hsE]
    · simp only [extract_cursor_rows]
      rw [if_neg (fun hor => hor.elim hu ht), hls, hEmpty, hsE]
      simp

/-- C10 (witness): concrete Apple/Uber and Meta/Cursor raw jobs with a url
and title and no location data, instantiating `missing_location_defaults`. -/
theorem missing_location_defaults_witness :
    extract_apple_rows c10job "Apple" =
      [{ url := pyStrip (c10job.url.getD ""),
         title := pyStrip (c10job.title.getD ""), location := "N/A",
         company := "Apple",
         ats_id := pyStrip (pyOr (c10job.positionId.getD "")
           (pyOr (c10job.id.getD "") (pyStrip (c10job.url.getD "")))),
         ats_type := "apple", salary_currency := none, salary_period := none,
         salary_summary := none, experience := none, lat := none,
         lon := none, posted_at := c10job.parsedPostedAt }] ∧
    (extract_meta_rows c10meta "Meta").map Row.location = [""] ∧
    (extract_cursor_rows c10meta "Meta").map Row.location = [""] :=
  ⟨(missing_location_defaults.1 c10job "Apple" (by decide) (by decide)
      (Or.inl rfl) (by decide)).1,
   (missing_location_defaults.2 c10meta "Meta" (by decide) (by decide)
      (Or.inl rfl) (by decide)).1,
   (missing_location_defaults.2 c10meta "Meta" (by decide) (by decide)
      (Or.inl rfl) (by decide)).2⟩

end JobMap
